import Mathlib

/-
Verification of the device-manager persistence subsystem of the Firecracker
virtual machine monitor (sthagen/firecracker-microvm-firecracker).

The Lean definitions below are a shallow embedding of the Rust sources:
  - src/vmm/src/devices/legacy/i8042.rs        (I8042Device)
  - src/vmm/src/devices/acpi/vmgenid.rs        (VmGenId)
  - src/vmm/src/device_manager/persist.rs      (MMIODeviceManager save/restore)
  - src/vmm/src/device_manager/pci_mngr.rs     (PciDevices save/restore)
  - src/vmm/src/device_manager/mod.rs          (DeviceManager)

Machine integers are modelled as Nat with explicit masking where overflow
matters.  Host side effects (eventfd writes, log lines, metric counters,
guest-memory writes) are modelled as explicit event lists.  Code of the
repository that is referenced but not part of the sources (the MMIO registry
internals, the per-device-kind save/restore routines, the vsock transport
reset notification) is modelled from the specification; each such definition
carries a doc comment saying so.
-/

namespace Firecracker

/- ------------------------------------------------------------------ -/
/- i8042 PS/2 controller, from src/vmm/src/devices/legacy/i8042.rs    -/
/- ------------------------------------------------------------------ -/

/-- Offset of the status port (port 0x64). -/
def OFS_STATUS : Nat := 4

/-- Offset of the data port (port 0x60). -/
def OFS_DATA : Nat := 0

/-- Read control register command. -/
def CMD_READ_CTR : Nat := 0x20

/-- Write control register command. -/
def CMD_WRITE_CTR : Nat := 0x60

/-- Read output port command. -/
def CMD_READ_OUTP : Nat := 0xD0

/-- Write output port command. -/
def CMD_WRITE_OUTP : Nat := 0xD1

/-- Reset CPU command. -/
def CMD_RESET_CPU : Nat := 0xFE

/-- Status bit: data available at port 0x60. -/
def SB_OUT_DATA_AVAIL : Nat := 0x0001

/-- Status bit: i8042 expecting command parameter at port 0x60. -/
def SB_I8042_CMD_DATA : Nat := 0x0008

/-- Status bit: keyboard enabled. -/
def SB_KBD_ENABLED : Nat := 0x0010

/-- Control bit: keyboard interrupt enabled. -/
def CB_KBD_INT : Nat := 0x0001

/-- Control bit: POST ok. -/
def CB_POST_OK : Nat := 0x0004

/-- Internal i8042 buffer size, in bytes. -/
def BUF_SIZE : Nat := 16

/-- Modulus of the Wrapping usize arithmetic used for the buffer indices. -/
def USIZE_MOD : Nat := 2 ^ 64

/-- Host-visible side effects of the i8042 device: eventfd writes, warnings
and the metric counters it increments. -/
inductive I8042Event
  | kbdInterrupt
  | kbdInterruptDisabledWarn
  | resetEvent
  | metricMissedRead
  | metricMissedWrite
  | metricRead (n : Nat)
  | metricWrite
  | metricReset
  | metricError
deriving DecidableEq

/-- State of the i8042 device: status, control and output registers, the
pending command byte and the internal buffer with its wrapping head and tail
indices (i8042.rs, struct I8042Device). -/
structure I8042Device where
  status : Nat
  control : Nat
  outp : Nat
  cmd : Nat
  buf : List Nat
  bhead : Nat
  btail : Nat
deriving DecidableEq

/-- I8042Device::new. -/
def I8042Device.new : I8042Device :=
  { status := SB_KBD_ENABLED
    control := CB_POST_OK ||| CB_KBD_INT
    outp := 0
    cmd := 0
    buf := List.replicate BUF_SIZE 0
    bhead := 0
    btail := 0 }

/-- buf_len: (btail - bhead).0 with Wrapping usize subtraction. -/
def I8042Device.buf_len (d : I8042Device) : Nat :=
  (d.btail + USIZE_MOD - d.bhead) % USIZE_MOD

/-- push_byte.  The Bool is true on success; note the status bit is set
before the buffer-full check, exactly as in the source. -/
def I8042Device.push_byte (d : I8042Device) (b : Nat) : I8042Device × Bool :=
  let d1 := { d with status := d.status ||| SB_OUT_DATA_AVAIL }
  if d1.buf_len = BUF_SIZE then (d1, false)
  else
    ({ d1 with
        buf := d1.buf.set (d1.btail % BUF_SIZE) b
        btail := (d1.btail + 1) % USIZE_MOD }, true)

/-- pop_byte. -/
def I8042Device.pop_byte (d : I8042Device) : I8042Device × Option Nat :=
  if d.buf_len = 0 then (d, none)
  else
    let res := d.buf.getD (d.bhead % BUF_SIZE) 0
    let d1 := { d with bhead := (d.bhead + 1) % USIZE_MOD }
    let d2 :=
      if d1.buf_len = 0 then
        { d1 with status := d1.status &&& (255 - SB_OUT_DATA_AVAIL) }
      else d1
    (d2, some res)

/-- flush_buf. -/
def I8042Device.flush_buf (d : I8042Device) : I8042Device :=
  { d with bhead := 0, btail := 0, status := d.status &&& (255 - SB_OUT_DATA_AVAIL) }

/-- trigger_kbd_interrupt.  The eventfd write is modelled as always
succeeding; the Bool is true when the interrupt was delivered, false when it
is disabled by the guest driver (the warn branch). -/
def I8042Device.trigger_kbd_interrupt (d : I8042Device) : Bool × List I8042Event :=
  if d.control &&& CB_KBD_INT = 0 then (false, [I8042Event.kbdInterruptDisabledWarn])
  else (true, [I8042Event.kbdInterrupt])

/-- I8042Device::bus_read.  Returns the new device state, the data slice as
the guest sees it afterwards, and the emitted events/metrics. -/
def I8042Device.bus_read (d : I8042Device) (offset : Nat) (data : List Nat) :
    I8042Device × List Nat × List I8042Event :=
  if data.length ≠ 1 then (d, data, [I8042Event.metricMissedRead])
  else if offset = OFS_STATUS then (d, [d.status], [I8042Event.metricRead 1])
  else if offset = OFS_DATA then
    let pr := d.pop_byte
    let d1 := pr.1
    let v := pr.2.getD 0
    let evs :=
      if d1.status &&& SB_OUT_DATA_AVAIL ≠ 0 then d1.trigger_kbd_interrupt.2 else []
    (d1, [v], evs ++ [I8042Event.metricRead 1])
  else (d, data, [I8042Event.metricMissedRead])

/-- I8042Device::bus_write. -/
def I8042Device.bus_write (d : I8042Device) (offset : Nat) (data : List Nat) :
    I8042Device × List I8042Event :=
  if data.length ≠ 1 then (d, [I8042Event.metricMissedWrite])
  else
    let b := data.getD 0 0
    if offset = OFS_STATUS ∧ b = CMD_RESET_CPU then
      (d, [I8042Event.resetEvent, I8042Event.metricReset, I8042Event.metricWrite])
    else if offset = OFS_STATUS ∧ b = CMD_READ_CTR then
      let d1 := d.flush_buf
      ((d1.push_byte d1.control).1, [I8042Event.metricWrite])
    else if offset = OFS_STATUS ∧ b = CMD_WRITE_CTR then
      let d1 := d.flush_buf
      ({ d1 with status := d1.status ||| SB_I8042_CMD_DATA, cmd := b },
       [I8042Event.metricWrite])
    else if offset = OFS_STATUS ∧ b = CMD_READ_OUTP then
      let d1 := d.flush_buf
      ((d1.push_byte d1.outp).1, [I8042Event.metricWrite])
    else if offset = OFS_STATUS ∧ b = CMD_WRITE_OUTP then
      ({ d with status := d.status ||| SB_I8042_CMD_DATA, cmd := b },
       [I8042Event.metricWrite])
    else if offset = OFS_DATA ∧ d.status &&& SB_I8042_CMD_DATA ≠ 0 then
      let d1 :=
        if d.cmd = CMD_WRITE_CTR then { d with control := b }
        else if d.cmd = CMD_WRITE_OUTP then { d with outp := b }
        else d
      ({ d1 with status := d1.status &&& (255 - SB_I8042_CMD_DATA) },
       [I8042Event.metricWrite])
    else if offset = OFS_DATA then
      let d1 := d.flush_buf
      let d2 := (d1.push_byte 0xFA).1
      (d2, d2.trigger_kbd_interrupt.2 ++ [I8042Event.metricWrite])
    else (d, [I8042Event.metricMissedWrite])

/- ------------------------------------------------------------------ -/
/- VMGenID device, from src/vmm/src/devices/acpi/vmgenid.rs           -/
/- ------------------------------------------------------------------ -/

/-- Persisted state of a VMGenID device: GSI and guest physical address
(vmgenid.rs, struct VMGenIDState). -/
structure VMGenIDState where
  gsi : Nat
  addr : Nat
deriving DecidableEq

/-- The VMGenID device: the current 128-bit generation value, the guest
physical address it lives at, and the GSI of its notification interrupt.
The interrupt eventfd is modelled through explicit events. -/
structure VmGenId where
  gen_id : Nat
  guest_address : Nat
  gsi : Nat
deriving DecidableEq

/-- Guest-visible side effects of the VMGenID device. -/
inductive VmGenIdEvent
  | guestMemoryWrite (addr : Nat) (value : Nat)
  | interruptTriggered
deriving DecidableEq

/-- VmGenId::from_parts.  The call to make_genid (16 random bytes from the
host RNG) is modelled by the explicit argument rand, truncated to u128. -/
def VmGenId.from_parts (rand : Nat) (guest_address : Nat) (gsi : Nat) : VmGenId :=
  { gen_id := rand % 2 ^ 128, guest_address := guest_address, gsi := gsi }

/-- VmGenId::restore (Persist impl): rebuilds the device with from_parts from
the saved address and GSI; no event is emitted, so nothing is guest visible. -/
def VmGenId.restore (rand : Nat) (s : VMGenIDState) : VmGenId × List VmGenIdEvent :=
  (VmGenId.from_parts rand s.addr s.gsi, [])

/-- VmGenId::save (Persist impl). -/
def VmGenId.save (d : VmGenId) : VMGenIDState :=
  { gsi := d.gsi, addr := d.guest_address }

/-- VmGenId::do_post_restore: writes 1 to the interrupt eventfd.  The device
state is untouched. -/
def VmGenId.do_post_restore (d : VmGenId) : VmGenId × List VmGenIdEvent :=
  (d, [VmGenIdEvent.interruptTriggered])

/-- VmGenId::activate: writes the generation value to guest memory. -/
def VmGenId.activate (d : VmGenId) : List VmGenIdEvent :=
  [VmGenIdEvent.guestMemoryWrite d.guest_address d.gen_id]

/- ------------------------------------------------------------------ -/
/- Virtio device model shared by the MMIO and PCI registries          -/
/- ------------------------------------------------------------------ -/

/-- The five virtio device kinds handled by the exhaustive matches in
MMIODeviceManager::save and PciDevices::save (TYPE_BALLOON, TYPE_BLOCK,
TYPE_NET, TYPE_VSOCK, TYPE_RNG and the VIRTIO_ID equivalents). -/
inductive DeviceKind
  | balloon
  | block
  | net
  | vsock
  | entropy
deriving DecidableEq

/-- The shared metadata-service configuration record captured in a snapshot
(persist.rs, struct MmdsState): data-store version and IMDS compatibility. -/
structure MmdsState where
  version : Nat
  imds_compat : Bool
deriving DecidableEq

/-- Modelled from the spec: MMIODeviceInfo (BusRegion base address and size
plus the device's legacy interrupt line) lives in the MMIO registry module,
which is not among the sources; its three fields are fixed by the spec's
BusRegion and Gsi descriptions and by the uses in persist.rs. -/
structure MmioDeviceInfo where
  addr : Nat
  len : Nat
  irq : Nat
deriving DecidableEq

/-- Persisted PCI transport state (VirtioPciDeviceState as used by
pci_mngr.rs): the device's BDF, its MSI-X vector group, its 64-bit BAR
region, and the remaining transport bookkeeping collapsed to one payload. -/
structure PciTransportState where
  pci_device_bdf : Nat
  msi_vector_group : List Nat
  bar_addr : Nat
  bar_size : Nat
  payload : Nat
deriving DecidableEq

/-- A live virtio device as seen by a registry.  The kind-internal state is
collapsed to a Nat payload; the fields that the save/restore protocol
branches on are explicit.  vsock_after_reset is the queue payload after a
delivered transport-reset notification and vsock_reset_fails says whether
delivering that notification fails; both are only meaningful for vsock. -/
structure VirtioDev where
  kind : DeviceKind
  device_id : String
  activated : Bool
  is_vhost_user : Bool
  mmds_ns : Option MmdsState
  payload : Nat
  vsock_after_reset : Nat
  vsock_reset_fails : Bool
  mmio_transport : Nat
  resources : MmioDeviceInfo
  pci_transport : PciTransportState
deriving DecidableEq

/-- Modelled from the spec: the kind-specific persisted device state (the T
in DeviceSnapshotEntry).  Every kind's state carries the virtio activated
flag; the net state additionally carries the legacy metadata-service
namespace marker (NetState.mmds_ns presence) that PciDevices::restore
checks; everything else is the payload. -/
structure DevicePayloadState where
  activated : Bool
  has_mmds_ns : Bool
  data : Nat
deriving DecidableEq

/-- Modelled from the spec: the per-kind save routines (Balloon::save,
Block::save after prepare_save, Net::save after prepare_save, Vsock::save,
Entropy::save) are outside the sources; per the spec they capture the
quiescent device state together with the activation flag, and for net the
namespace marker. -/
def VirtioDev.saveState (d : VirtioDev) : DevicePayloadState :=
  { activated := d.activated, has_mmds_ns := d.mmds_ns.isSome, data := d.payload }

/-- Modelled from the spec: Vsock::send_transport_reset_event notifies the
guest and thereby moves the virtqueue state to what the guest will see after
restore; delivering the notification can fail with an error the caller
logs. -/
def VirtioDev.sendTransportResetEvent (d : VirtioDev) : Except Unit VirtioDev :=
  if d.vsock_reset_fails then Except.error ()
  else Except.ok { d with payload := d.vsock_after_reset }

/-- The vsock device as it stands when its state is read during save: the
transport-reset notification has been attempted first when the device is
activated (persist.rs TYPE_VSOCK arm, pci_mngr.rs VIRTIO_ID_VSOCK arm). -/
def VirtioDev.vsockNotified (d : VirtioDev) : VirtioDev :=
  if d.activated then
    match d.sendTransportResetEvent with
    | Except.ok d2 => d2
    | Except.error _ => d
  else d

/-- Side effects of a save traversal: the skip warning for vhost-user block
devices, the vsock transport-reset notification and its logged failure, and
one capture record per persisted device. -/
inductive SaveEvent
  | warnVhostUserSkipped
  | vsockResetSent
  | vsockResetErrorLogged
  | captured (kind : DeviceKind) (device_id : String)
deriving DecidableEq

/- ------------------------------------------------------------------ -/
/- MMIO device manager persistence, from persist.rs                   -/
/- ------------------------------------------------------------------ -/

/-- Holds the state of an MMIO virtio device (persist.rs, struct
VirtioDeviceState). -/
structure VirtioDeviceState where
  device_id : String
  device_state : DevicePayloadState
  transport_state : Nat
  device_info : MmioDeviceInfo
deriving DecidableEq

/-- The snapshot entry MMIODeviceManager::save builds for one device. -/
def VirtioDev.toMmioState (d : VirtioDev) : VirtioDeviceState :=
  { device_id := d.device_id
    device_state := d.saveState
    transport_state := d.mmio_transport
    device_info := d.resources }

/-- Holds the MMIO device states (persist.rs, struct DeviceStates; the
aarch64-only legacy_devices field is omitted together with the rest of the
aarch64-gated code). -/
structure DeviceStates where
  block_devices : List VirtioDeviceState
  net_devices : List VirtioDeviceState
  vsock_device : Option VirtioDeviceState
  balloon_device : Option VirtioDeviceState
  mmds : Option MmdsState
  entropy_device : Option VirtioDeviceState
deriving DecidableEq

/-- DeviceStates::default(). -/
def DeviceStates.empty : DeviceStates :=
  { block_devices := []
    net_devices := []
    vsock_device := none
    balloon_device := none
    mmds := none
    entropy_device := none }

/-- One iteration of the for_each_virtio_device closure in
MMIODeviceManager::save: the exhaustive match over the device type. -/
def MmioDeviceManager.saveStep (acc : DeviceStates × List SaveEvent) (d : VirtioDev) :
    DeviceStates × List SaveEvent :=
  let states := acc.1
  let evs := acc.2
  match d.kind with
  | DeviceKind.balloon =>
      ({ states with balloon_device := some d.toMmioState },
       evs ++ [SaveEvent.captured DeviceKind.balloon d.device_id])
  | DeviceKind.block =>
      if d.is_vhost_user then
        (states, evs ++ [SaveEvent.warnVhostUserSkipped])
      else
        ({ states with block_devices := states.block_devices ++ [d.toMmioState] },
         evs ++ [SaveEvent.captured DeviceKind.block d.device_id])
  | DeviceKind.net =>
      let states1 :=
        match d.mmds_ns, states.mmds with
        | some ns, none => { states with mmds := some ns }
        | _, _ => states
      ({ states1 with net_devices := states1.net_devices ++ [d.toMmioState] },
       evs ++ [SaveEvent.captured DeviceKind.net d.device_id])
  | DeviceKind.vsock =>
      if d.activated then
        match d.sendTransportResetEvent with
        | Except.ok d2 =>
            ({ states with vsock_device := some d2.toMmioState },
             evs ++ [SaveEvent.vsockResetSent,
               SaveEvent.captured DeviceKind.vsock d.device_id])
        | Except.error _ =>
            ({ states with vsock_device := some d.toMmioState },
             evs ++ [SaveEvent.vsockResetSent, SaveEvent.vsockResetErrorLogged,
               SaveEvent.captured DeviceKind.vsock d.device_id])
      else
        ({ states with vsock_device := some d.toMmioState },
         evs ++ [SaveEvent.captured DeviceKind.vsock d.device_id])
  | DeviceKind.entropy =>
      ({ states with entropy_device := some d.toMmioState },
       evs ++ [SaveEvent.captured DeviceKind.entropy d.device_id])

/-- MMIODeviceManager::save: traverses the registry's devices (the traversal
order of the backing hash map is the order of the input list) and dispatches
each one through the exhaustive kind match. -/
def MmioDeviceManager.save (devs : List VirtioDev) : DeviceStates × List SaveEvent :=
  devs.foldl MmioDeviceManager.saveStep (DeviceStates.empty, [])

/-- The events one device contributes to a save traversal. -/
def devSaveEvents (d : VirtioDev) : List SaveEvent :=
  match d.kind with
  | DeviceKind.balloon => [SaveEvent.captured DeviceKind.balloon d.device_id]
  | DeviceKind.block =>
      if d.is_vhost_user then [SaveEvent.warnVhostUserSkipped]
      else [SaveEvent.captured DeviceKind.block d.device_id]
  | DeviceKind.net => [SaveEvent.captured DeviceKind.net d.device_id]
  | DeviceKind.vsock =>
      (if d.activated then
        [SaveEvent.vsockResetSent] ++
          (if d.vsock_reset_fails then [SaveEvent.vsockResetErrorLogged] else [])
      else []) ++ [SaveEvent.captured DeviceKind.vsock d.device_id]
  | DeviceKind.entropy => [SaveEvent.captured DeviceKind.entropy d.device_id]

/-- The metadata-service record supplied by the first traversed net device
that carries a namespace reference. -/
def firstNetMmds (devs : List VirtioDev) : Option MmdsState :=
  (devs.find? fun d => decide (d.kind = DeviceKind.net) && d.mmds_ns.isSome).bind
    VirtioDev.mmds_ns

/- ------------------------------------------------------------------ -/
/- PCI device manager persistence, from pci_mngr.rs                   -/
/- ------------------------------------------------------------------ -/

/-- Holds the state of a PCI virtio device (pci_mngr.rs, struct
VirtioDeviceState). -/
structure PciVirtioDeviceState where
  device_id : String
  pci_device_bdf : Nat
  device_state : DevicePayloadState
  transport_state : PciTransportState
deriving DecidableEq

/-- The snapshot entry PciDevices::save builds for one device. -/
def VirtioDev.toPciState (d : VirtioDev) : PciVirtioDeviceState :=
  { device_id := d.device_id
    pci_device_bdf := d.pci_transport.pci_device_bdf
    device_state := d.saveState
    transport_state := d.pci_transport }

/-- Holds the PCI device states (pci_mngr.rs, struct PciDevicesState). -/
structure PciDevicesState where
  pci_enabled : Bool
  block_devices : List PciVirtioDeviceState
  net_devices : List PciVirtioDeviceState
  vsock_device : Option PciVirtioDeviceState
  balloon_device : Option PciVirtioDeviceState
  mmds : Option MmdsState
  entropy_device : Option PciVirtioDeviceState
deriving DecidableEq

/-- PciDevicesState::default(). -/
def PciDevicesState.empty : PciDevicesState :=
  { pci_enabled := false
    block_devices := []
    net_devices := []
    vsock_device := none
    balloon_device := none
    mmds := none
    entropy_device := none }

/-- One iteration of the device loop in PciDevices::save: the exhaustive
match over the VIRTIO_ID device types. -/
def PciDevices.saveStep (acc : PciDevicesState × List SaveEvent) (d : VirtioDev) :
    PciDevicesState × List SaveEvent :=
  let state := acc.1
  let evs := acc.2
  match d.kind with
  | DeviceKind.balloon =>
      ({ state with balloon_device := some d.toPciState },
       evs ++ [SaveEvent.captured DeviceKind.balloon d.device_id])
  | DeviceKind.block =>
      if d.is_vhost_user then
        (state, evs ++ [SaveEvent.warnVhostUserSkipped])
      else
        ({ state with block_devices := state.block_devices ++ [d.toPciState] },
         evs ++ [SaveEvent.captured DeviceKind.block d.device_id])
  | DeviceKind.net =>
      let state1 :=
        match d.mmds_ns, state.mmds with
        | some ns, none => { state with mmds := some ns }
        | _, _ => state
      ({ state1 with net_devices := state1.net_devices ++ [d.toPciState] },
       evs ++ [SaveEvent.captured DeviceKind.net d.device_id])
  | DeviceKind.vsock =>
      if d.activated then
        match d.sendTransportResetEvent with
        | Except.ok d2 =>
            ({ state with vsock_device := some d2.toPciState },
             evs ++ [SaveEvent.vsockResetSent,
               SaveEvent.captured DeviceKind.vsock d.device_id])
        | Except.error _ =>
            ({ state with vsock_device := some d.toPciState },
             evs ++ [SaveEvent.vsockResetSent, SaveEvent.vsockResetErrorLogged,
               SaveEvent.captured DeviceKind.vsock d.device_id])
      else
        ({ state with vsock_device := some d.toPciState },
         evs ++ [SaveEvent.captured DeviceKind.vsock d.device_id])
  | DeviceKind.entropy =>
      ({ state with entropy_device := some d.toPciState },
       evs ++ [SaveEvent.captured DeviceKind.entropy d.device_id])

/-- PciDevices::save: returns the default (disabled) state untouched when no
PCI segment is attached, otherwise sets pci_enabled and traverses the
registry's devices. -/
def PciDevices.save (pci_enabled : Bool) (devs : List VirtioDev) :
    PciDevicesState × List SaveEvent :=
  if pci_enabled then
    devs.foldl PciDevices.saveStep ({ PciDevicesState.empty with pci_enabled := true }, [])
  else (PciDevicesState.empty, [])

/- ------------------------------------------------------------------ -/
/- Restore paths                                                      -/
/- ------------------------------------------------------------------ -/

/-- The cross-device resource table (resources.rs VmResources) restricted to
the field the restore protocol manipulates: the optional shared
metadata-service configuration. -/
structure VmResources where
  mmds : Option MmdsState
deriving DecidableEq

/-- Modelled from the spec: VmResources::mmds_or_default initializes the
shared metadata-service configuration with the default version when it is
absent, and keeps the existing one otherwise. -/
def MmdsState.defaultConfig : MmdsState :=
  { version := 0, imds_compat := false }

/-- VmResources::mmds_or_default (see MmdsState.defaultConfig). -/
def VmResources.mmdsOrDefault (res : VmResources) : VmResources :=
  { res with mmds := some (res.mmds.getD MmdsState.defaultConfig) }

/-- VmResources::set_mmds_basic_config restricted to the modelled field. -/
def VmResources.setMmdsBasicConfig (res : VmResources) (m : MmdsState) : VmResources :=
  { res with mmds := some m }

/-- Turns an optional snapshot entry into the zero- or one-element list of
things built from it (the if-let-Some pattern of the restore paths). -/
def optionToList (o : Option α) (g : α → β) : List β :=
  match o with
  | some e => [g e]
  | none => []

/-- The device rebuilt by the kind-specific restore call plus restore_helper
(persist.rs): identity and payload come from the snapshot entry, the
transport and bus resources are taken verbatim from the saved
transport_state and device_info (restore_helper never consults the resource
allocator), and activation is replayed exactly when the snapshot recorded
the device as activated.  The per-kind restore routines are outside the
sources; per the spec they rehydrate the payload unchanged, and a restored
net device binds the shared metadata-service handle passed by the caller
exactly when its saved state carries the namespace marker. -/
def restoredMmioDev (k : DeviceKind) (mmdsHandle : Option MmdsState)
    (e : VirtioDeviceState) : VirtioDev :=
  { kind := k
    device_id := e.device_id
    activated := e.device_state.activated
    is_vhost_user := false
    mmds_ns := if e.device_state.has_mmds_ns then mmdsHandle else none
    payload := e.device_state.data
    vsock_after_reset := e.device_state.data
    vsock_reset_fails := false
    mmio_transport := e.transport_state
    resources := e.device_info
    pci_transport :=
      { pci_device_bdf := 0, msi_vector_group := [], bar_addr := 0, bar_size := 0
        payload := 0 } }

/-- MMIODeviceManager::restore.  The alloc argument stands for the resource
allocator reachable through the constructor args; the function never draws
from it.  Devices are rebuilt in the fixed order balloon, block, (MMDS
configuration), net, vsock, entropy; the returned VmResources is the state
of the shared resource table from the MMDS-initialization step on, which is
what every net device restore reads. -/
def MmioDeviceManager.restore (_alloc : Nat) (res : VmResources) (s : DeviceStates) :
    List VirtioDev × VmResources :=
  let balloonDevs := optionToList s.balloon_device (restoredMmioDev DeviceKind.balloon none)
  let blockDevs := s.block_devices.map (restoredMmioDev DeviceKind.block none)
  let res1 :=
    match s.mmds with
    | some m => res.setMmdsBasicConfig m
    | none => res
  let netDevs :=
    s.net_devices.map fun e => restoredMmioDev DeviceKind.net res1.mmds e
  let vsockDevs := optionToList s.vsock_device (restoredMmioDev DeviceKind.vsock none)
  let entropyDevs := optionToList s.entropy_device (restoredMmioDev DeviceKind.entropy none)
  (balloonDevs ++ blockDevs ++ netDevs ++ vsockDevs ++ entropyDevs, res1)

/-- The device rebuilt by the kind-specific restore call plus
PciDevices::restore_pci_device: identity and payload from the snapshot
entry; the BDF, the MSI-X vector group and the BAR region are taken verbatim
from the saved transport state (restore_pci_device never calls
next_device_bdf, create_msix_group or allocate_bars). -/
def restoredPciDev (k : DeviceKind) (mmdsHandle : Option MmdsState)
    (e : PciVirtioDeviceState) : VirtioDev :=
  { kind := k
    device_id := e.device_id
    activated := e.device_state.activated
    is_vhost_user := false
    mmds_ns := if e.device_state.has_mmds_ns then mmdsHandle else none
    payload := e.device_state.data
    vsock_after_reset := e.device_state.data
    vsock_reset_fails := false
    mmio_transport := 0
    resources :=
      { addr := e.transport_state.bar_addr, len := e.transport_state.bar_size,
        irq := 0 }
    pci_transport := e.transport_state }

/-- PciDevices::restore.  Returns the empty registry untouched when the
snapshot has PCI disabled; otherwise attaches the PCI segment and rebuilds
devices in the order balloon, block, (MMDS configuration), net, vsock,
entropy.  The MMDS step applies the saved record when present, and otherwise
falls back to the default configuration when at least one saved net device
state carries the legacy namespace marker.  The alloc argument stands for
the resource allocator; it is never consulted. -/
def PciDevices.restore (_alloc : Nat) (res : VmResources) (s : PciDevicesState) :
    List VirtioDev × VmResources :=
  if s.pci_enabled then
    let balloonDevs := optionToList s.balloon_device (restoredPciDev DeviceKind.balloon none)
    let blockDevs := s.block_devices.map (restoredPciDev DeviceKind.block none)
    let res1 :=
      match s.mmds with
      | some m => res.setMmdsBasicConfig m
      | none =>
          if s.net_devices.any (fun e => e.device_state.has_mmds_ns) then
            res.mmdsOrDefault
          else res
    let netDevs :=
      s.net_devices.map fun e => restoredPciDev DeviceKind.net res1.mmds e
    let vsockDevs := optionToList s.vsock_device (restoredPciDev DeviceKind.vsock none)
    let entropyDevs := optionToList s.entropy_device (restoredPciDev DeviceKind.entropy none)
    (balloonDevs ++ blockDevs ++ netDevs ++ vsockDevs ++ entropyDevs, res1)
  else ([], res)

/- ------------------------------------------------------------------ -/
/- Device manager orchestration, from mod.rs                          -/
/- ------------------------------------------------------------------ -/

/-- The lookup key of a virtio registry entry: device type and device id. -/
def DeviceKey : Type := DeviceKind × String

instance : DecidableEq DeviceKey := fun a b =>
  inferInstanceAs (Decidable (Prod.mk a.1 a.2 = Prod.mk b.1 b.2))

/-- HashMap::insert on an association list: replaces any binding of the same
key and adds the new one. -/
def assocInsert (k : DeviceKey) (v : VirtioDev) (l : List (DeviceKey × VirtioDev)) :
    List (DeviceKey × VirtioDev) :=
  l.filter (fun p => decide (p.1 = k) = false) ++ [(k, v)]

/-- HashMap::get on an association list. -/
def assocFind (k : DeviceKey) (l : List (DeviceKey × VirtioDev)) : Option VirtioDev :=
  (l.find? fun p => decide (p.1 = k)).map Prod.snd

/-- The DeviceManager state the attach and lookup paths branch on: the MMIO
registry, the PCI registry, and whether a PCI segment is attached
(pci_devices.pci_segment.is_some()). -/
structure DeviceManager where
  mmio_devices : List (DeviceKey × VirtioDev)
  pci_enabled : Bool
  pci_devices : List (DeviceKey × VirtioDev)
deriving DecidableEq

/-- DeviceManager::new starts with both registries empty and no PCI
segment. -/
def DeviceManager.new : DeviceManager :=
  { mmio_devices := [], pci_enabled := false, pci_devices := [] }

/-- PciDevices::attach_pci_segment: asserts no segment is attached yet
(calling it twice is a Firecracker internal error, modelled as none) and
switches the manager to PCI mode. -/
def DeviceManager.enablePci (dm : DeviceManager) : Option DeviceManager :=
  if dm.pci_enabled then none
  else some { dm with pci_enabled := true }

/-- DeviceManager::attach_virtio_device: places the device in the PCI
registry when a PCI segment is attached, in the MMIO registry otherwise. -/
def DeviceManager.attachVirtioDevice (dm : DeviceManager) (d : VirtioDev) :
    DeviceManager :=
  if dm.pci_enabled then
    { dm with pci_devices := assocInsert (d.kind, d.device_id) d dm.pci_devices }
  else
    { dm with mmio_devices := assocInsert (d.kind, d.device_id) d dm.mmio_devices }

/-- DeviceManager::get_virtio_device: consults the PCI registry when a PCI
segment is attached, and the MMIO registry otherwise; there is no
fallthrough from one registry to the other. -/
def DeviceManager.getVirtioDevice (dm : DeviceManager) (k : DeviceKind) (id : String) :
    Option VirtioDev :=
  if dm.pci_enabled then assocFind (k, id) dm.pci_devices
  else assocFind (k, id) dm.mmio_devices

/-- A sequence of attach_virtio_device calls applied in order. -/
def DeviceManager.applyAttaches (dm : DeviceManager) (ds : List VirtioDev) :
    DeviceManager :=
  ds.foldl DeviceManager.attachVirtioDevice dm

/- ------------------------------------------------------------------ -/
/- DeviceManager::restore ordering, from mod.rs                       -/
/- ------------------------------------------------------------------ -/

/-- State of devices in the system (mod.rs, struct DevicesState). -/
structure DevicesState where
  mmio_state : DeviceStates
  acpi_state : Option VMGenIDState
  pci_state : PciDevicesState
deriving DecidableEq

/-- The observable steps DeviceManager::restore performs, in order. -/
inductive RestoreStep
  | legacyCreated
  | mmioDevice (device_id : String)
  | acpiRestored
  | pciSegmentAttached
  | pciDevice (device_id : String)
  | serialInit
deriving DecidableEq

/-- The step sequence of DeviceManager::restore (mod.rs): legacy devices are
created first, then MMIODeviceManager::restore runs on the snapshot's MMIO
state, then ACPIDeviceManager::restore plus the VMGenID notification, then
PciDevices::restore runs on the snapshot's PCI state (attaching the segment
and rebuilding the PCI devices only when the snapshot has PCI enabled), and
finally the serial-console initialization quirk is replayed. -/
def DeviceManager.restoreTrace (alloc : Nat) (_rand : Nat) (res : VmResources)
    (s : DevicesState) : List RestoreStep :=
  let mmioRes := MmioDeviceManager.restore alloc res s.mmio_state
  let mmioSteps := mmioRes.1.map fun d => RestoreStep.mmioDevice d.device_id
  let pciRes := PciDevices.restore alloc mmioRes.2 s.pci_state
  let pciSteps :=
    (if s.pci_state.pci_enabled then [RestoreStep.pciSegmentAttached] else []) ++
      pciRes.1.map fun d => RestoreStep.pciDevice d.device_id
  [RestoreStep.legacyCreated] ++ mmioSteps ++ [RestoreStep.acpiRestored] ++ pciSteps ++
    [RestoreStep.serialInit]

/- ------------------------------------------------------------------ -/
/- Derived notions used to state and prove the properties             -/
/- ------------------------------------------------------------------ -/

/-- The identity data the round-trip property compares: device type, device
id, and the activation flag. -/
def devTriple (d : VirtioDev) : DeviceKind × String × Bool :=
  (d.kind, d.device_id, d.activated)

/-- First-some choice on options. -/
def optFirst (a b : Option α) : Option α :=
  match a with
  | some v => some v
  | none => b

/-- The block-list contribution of one traversed device to a save: one entry
when it is a block device not backed by vhost-user, nothing otherwise. -/
def blockContrib (mk : VirtioDev → β) (d : VirtioDev) : List β :=
  if d.kind = DeviceKind.block ∧ d.is_vhost_user = false then [mk d] else []

/-- The net-list contribution of one traversed device to a save. -/
def netContrib (mk : VirtioDev → β) (d : VirtioDev) : List β :=
  if d.kind = DeviceKind.net then [mk d] else []

/-- The balloon singleton a traversed device writes, if any. -/
def balloonValue (mk : VirtioDev → β) (d : VirtioDev) : Option β :=
  if d.kind = DeviceKind.balloon then some (mk d) else none

/-- The vsock singleton a traversed device writes, if any; the state captured
is the one after the transport-reset notification attempt. -/
def vsockValue (mk : VirtioDev → β) (d : VirtioDev) : Option β :=
  if d.kind = DeviceKind.vsock then some (mk d.vsockNotified) else none

/-- The entropy singleton a traversed device writes, if any. -/
def entropyValue (mk : VirtioDev → β) (d : VirtioDev) : Option β :=
  if d.kind = DeviceKind.entropy then some (mk d) else none

/-- The metadata-service record a traversed device can supply. -/
def mmdsContrib (d : VirtioDev) : Option MmdsState :=
  if d.kind = DeviceKind.net then d.mmds_ns else none

/-- Last-writer-wins accumulation of an optional per-device value over a
traversal. -/
def lastContrib (f : VirtioDev → Option β) (t : List VirtioDev) : Option β :=
  t.foldl (fun o d => optFirst (f d) o) none

/-- First-writer-wins accumulation of an optional per-device value over a
traversal. -/
def firstContrib (f : VirtioDev → Option β) (t : List VirtioDev) : Option β :=
  t.foldl (fun o d => optFirst o (f d)) none

/-- The PCI resources of a live device: BDF, MSI-X vector group, BAR region. -/
def devPciResources (d : VirtioDev) : Nat × List Nat × Nat × Nat :=
  (d.pci_transport.pci_device_bdf, d.pci_transport.msi_vector_group,
    d.pci_transport.bar_addr, d.pci_transport.bar_size)

/-- The MMIO bus regions and interrupt lines recorded in a snapshot, listed
in the order MMIODeviceManager::restore rebuilds devices. -/
def recordedMmioResources (s : DeviceStates) : List MmioDeviceInfo :=
  optionToList s.balloon_device VirtioDeviceState.device_info ++
    s.block_devices.map VirtioDeviceState.device_info ++
    s.net_devices.map VirtioDeviceState.device_info ++
    optionToList s.vsock_device VirtioDeviceState.device_info ++
    optionToList s.entropy_device VirtioDeviceState.device_info

/-- The BDF, MSI-X vector group and BAR region a snapshot entry records. -/
def pciEntryResources (e : PciVirtioDeviceState) : Nat × List Nat × Nat × Nat :=
  (e.transport_state.pci_device_bdf, e.transport_state.msi_vector_group,
    e.transport_state.bar_addr, e.transport_state.bar_size)

/-- The PCI resources recorded in a snapshot, listed in the order
PciDevices::restore rebuilds devices. -/
def recordedPciResources (s : PciDevicesState) : List (Nat × List Nat × Nat × Nat) :=
  if s.pci_enabled then
    optionToList s.balloon_device pciEntryResources ++
      s.block_devices.map pciEntryResources ++
      s.net_devices.map pciEntryResources ++
      optionToList s.vsock_device pciEntryResources ++
      optionToList s.entropy_device pciEntryResources
  else []

/- ------------------------------------------------------------------ -/
/- Concrete sample data used by witnesses and counterexamples         -/
/- ------------------------------------------------------------------ -/

/-- A live device of the given kind with default resources, used to build
concrete topologies. -/
def sampleDev (k : DeviceKind) (id : String) : VirtioDev :=
  { kind := k
    device_id := id
    activated := true
    is_vhost_user := false
    mmds_ns := none
    payload := 0
    vsock_after_reset := 0
    vsock_reset_fails := false
    mmio_transport := 0
    resources := { addr := 0, len := 0, irq := 0 }
    pci_transport :=
      { pci_device_bdf := 0, msi_vector_group := [], bar_addr := 0, bar_size := 0
        payload := 0 } }

/-- A sample metadata-service record. -/
def sampleMmds : MmdsState :=
  { version := 2, imds_compat := false }

/-- A topology with one device of every kind, used as a concrete witness
input for the round-trip property. -/
def roundTripTopology : List VirtioDev :=
  [sampleDev DeviceKind.balloon "bal",
    sampleDev DeviceKind.block "rootfs",
    sampleDev DeviceKind.block "data",
    { sampleDev DeviceKind.net "netif" with mmds_ns := some sampleMmds },
    sampleDev DeviceKind.vsock "vs",
    sampleDev DeviceKind.entropy "rng"]

/-- A topology holding an attached vhost-user-backed block device next to an
ordinary block device and a net device. -/
def vhostTopology : List VirtioDev :=
  [{ sampleDev DeviceKind.block "vublk" with is_vhost_user := true },
    sampleDev DeviceKind.block "rootfs",
    sampleDev DeviceKind.net "net0"]

/-- A topology whose only vsock device is activated and whose transport-reset
notification delivery fails. -/
def vsockFailTopology : List VirtioDev :=
  [sampleDev DeviceKind.net "net0",
    { sampleDev DeviceKind.vsock "vs" with
        vsock_after_reset := 7
        vsock_reset_fails := true }]

/-- A device manager in PCI mode with both registries empty. -/
def enabledManager : DeviceManager :=
  { mmio_devices := [], pci_enabled := true, pci_devices := [] }

/-- A saved PCI block-device entry used to build concrete snapshots. -/
def samplePciBlockEntry : PciVirtioDeviceState :=
  { device_id := "blk0"
    pci_device_bdf := 1
    device_state := { activated := false, has_mmds_ns := false, data := 0 }
    transport_state :=
      { pci_device_bdf := 1, msi_vector_group := [3, 4], bar_addr := 0, bar_size := 0
        payload := 0 } }

/-- A saved net-device entry that carries the legacy metadata-service
namespace marker but for which no explicit MmdsState record was saved. -/
def sampleNetMarkerEntry : VirtioDeviceState :=
  { device_id := "netif"
    device_state := { activated := false, has_mmds_ns := true, data := 0 }
    transport_state := 0
    device_info := { addr := 0, len := 0, irq := 0 } }

/-- An MMIO snapshot holding one net device with the legacy namespace marker
and no explicit metadata-service record. -/
def mmioMarkerSnapshot : DeviceStates :=
  { block_devices := []
    net_devices := [sampleNetMarkerEntry]
    vsock_device := none
    balloon_device := none
    mmds := none
    entropy_device := none }

/-- A saved PCI net-device entry with the legacy namespace marker. -/
def samplePciNetMarkerEntry : PciVirtioDeviceState :=
  { device_id := "netif"
    pci_device_bdf := 2
    device_state := { activated := false, has_mmds_ns := true, data := 0 }
    transport_state :=
      { pci_device_bdf := 2, msi_vector_group := [5, 6], bar_addr := 0, bar_size := 0
        payload := 0 } }

/-- A PCI snapshot holding one net device with the legacy namespace marker
and no explicit metadata-service record. -/
def pciMarkerSnapshot : PciDevicesState :=
  { pci_enabled := true
    block_devices := []
    net_devices := [samplePciNetMarkerEntry]
    vsock_device := none
    balloon_device := none
    mmds := none
    entropy_device := none }

/-- A full snapshot with PCI enabled and one saved PCI block device; the
MMIO section is empty, as it is for every PCI-mode topology. -/
def pciEnabledSnapshot : DevicesState :=
  { mmio_state := DeviceStates.empty
    acpi_state := some { gsi := 5, addr := 0xDEAD0 }
    pci_state :=
      { pci_enabled := true
        block_devices := [samplePciBlockEntry]
        net_devices := []
        vsock_device := none
        balloon_device := none
        mmds := none
        entropy_device := none } }

/-- An MMIO-mode snapshot holding one saved entropy device, used to exercise
the restore ordering on the MMIO side. -/
def mmioEnabledSnapshot : DevicesState :=
  { mmio_state :=
      { block_devices := []
        net_devices := []
        vsock_device := none
        balloon_device := none
        mmds := none
        entropy_device := some
          { device_id := "rng0"
            device_state := { activated := false, has_mmds_ns := false, data := 0 }
            transport_state := 0
            device_info := { addr := 0, len := 0, irq := 0 } } }
    acpi_state := some { gsi := 5, addr := 0xDEAD0 }
    pci_state := PciDevicesState.empty }

end Firecracker

namespace Firecracker

/-- Claim C10: for every i8042 device state, every offset, and every data
slice whose length is not exactly 1, both bus_read and bus_write leave the
entire device state unchanged, trigger no reset event and no keyboard
interrupt, and only increment a missed-access metric. -/
theorem i8042_short_access_is_noop (d : I8042Device) (offset : Nat) (data : List Nat)
    (h : data.length ≠ 1) :
    d.bus_read offset data = (d, data, [I8042Event.metricMissedRead]) ∧
      d.bus_write offset data = (d, [I8042Event.metricMissedWrite]) := by
  constructor
  · unfold I8042Device.bus_read
    rw [if_pos h]
  · unfold I8042Device.bus_write
    rw [if_pos h]

/-- Witness for C10 at the empty data slice. -/
theorem i8042_short_access_is_noop_witness :
    ([] : List Nat).length ≠ 1 ∧
      (I8042Device.new.bus_read 0 [] =
          (I8042Device.new, [], [I8042Event.metricMissedRead]) ∧
        I8042Device.new.bus_write 0 [] =
          (I8042Device.new, [I8042Event.metricMissedWrite])) :=
  ⟨by decide, i8042_short_access_is_noop I8042Device.new 0 [] (by decide)⟩

/- ------------------------------------------------------------------ -/
/- Helper lemmas about the save traversals                            -/
/- ------------------------------------------------------------------ -/

theorem optFirst_none_left (b : Option α) : optFirst none b = b := rfl

theorem optFirst_none_right (a : Option α) : optFirst a none = a := by
  cases a <;> rfl

theorem optFirst_assoc (a b c : Option α) :
    optFirst (optFirst a b) c = optFirst a (optFirst b c) := by
  cases a <;> rfl

theorem foldl_optFirst_last (f : VirtioDev → Option β) (t : List VirtioDev)
    (o : Option β) :
    t.foldl (fun o d => optFirst (f d) o) o = optFirst (lastContrib f t) o := by
  induction t generalizing o with
  | nil => simp [lastContrib, optFirst_none_left]
  | cons d t ih =>
      rw [List.foldl_cons, ih (optFirst (f d) o)]
      show _ = optFirst (lastContrib f (d :: t)) o
      rw [show lastContrib f (d :: t) =
          List.foldl (fun o d => optFirst (f d) o) (optFirst (f d) none) t from rfl]
      rw [ih (optFirst (f d) none), optFirst_none_right, optFirst_assoc]

theorem lastContrib_cons (f : VirtioDev → Option β) (d : VirtioDev)
    (t : List VirtioDev) :
    lastContrib f (d :: t) = optFirst (lastContrib f t) (f d) := by
  rw [show lastContrib f (d :: t) =
      List.foldl (fun o d => optFirst (f d) o) (optFirst (f d) none) t from rfl]
  rw [foldl_optFirst_last, optFirst_none_right]

theorem foldl_optFirst_first (f : VirtioDev → Option β) (t : List VirtioDev)
    (o : Option β) :
    t.foldl (fun o d => optFirst o (f d)) o = optFirst o (firstContrib f t) := by
  induction t generalizing o with
  | nil => simp [firstContrib, optFirst_none_right]
  | cons d t ih =>
      rw [List.foldl_cons, ih (optFirst o (f d))]
      show _ = optFirst o (firstContrib f (d :: t))
      rw [show firstContrib f (d :: t) =
          List.foldl (fun o d => optFirst o (f d)) (optFirst none (f d)) t from rfl]
      rw [ih (optFirst none (f d)), optFirst_none_left, optFirst_assoc]

theorem firstContrib_cons (f : VirtioDev → Option β) (d : VirtioDev)
    (t : List VirtioDev) :
    firstContrib f (d :: t) = optFirst (f d) (firstContrib f t) := by
  rw [show firstContrib f (d :: t) =
      List.foldl (fun o d => optFirst o (f d)) (optFirst none (f d)) t from rfl]
  rw [foldl_optFirst_first, optFirst_none_left]

theorem mmio_saveStep_eq (acc : DeviceStates × List SaveEvent) (d : VirtioDev) :
    MmioDeviceManager.saveStep acc d =
      ({ block_devices := acc.1.block_devices ++ blockContrib VirtioDev.toMmioState d
         net_devices := acc.1.net_devices ++ netContrib VirtioDev.toMmioState d
         vsock_device := optFirst (vsockValue VirtioDev.toMmioState d) acc.1.vsock_device
         balloon_device :=
           optFirst (balloonValue VirtioDev.toMmioState d) acc.1.balloon_device
         mmds := optFirst acc.1.mmds (mmdsContrib d)
         entropy_device :=
           optFirst (entropyValue VirtioDev.toMmioState d) acc.1.entropy_device },
       acc.2 ++ devSaveEvents d) := by
  obtain ⟨⟨bl, nets, vs, ba, mm, en⟩, evs⟩ := acc
  obtain ⟨k, id, act, vu, ns, pl, vr, vf, mt, rs, pt⟩ := d
  cases k
  case balloon =>
    cases mm <;>
      simp [MmioDeviceManager.saveStep, devSaveEvents, blockContrib, netContrib,
        vsockValue, balloonValue, entropyValue, mmdsContrib, optFirst]
  case block =>
    cases vu <;> cases mm <;>
      simp [MmioDeviceManager.saveStep, devSaveEvents, blockContrib, netContrib,
        vsockValue, balloonValue, entropyValue, mmdsContrib, optFirst]
  case net =>
    cases ns <;> cases mm <;>
      simp [MmioDeviceManager.saveStep, devSaveEvents, blockContrib, netContrib,
        vsockValue, balloonValue, entropyValue, mmdsContrib, optFirst]
  case vsock =>
    cases act <;> cases vf <;> cases mm <;>
      simp [MmioDeviceManager.saveStep, devSaveEvents, blockContrib, netContrib,
        vsockValue, balloonValue, entropyValue, mmdsContrib, optFirst,
        VirtioDev.vsockNotified, VirtioDev.sendTransportResetEvent]
  case entropy =>
    cases mm <;>
      simp [MmioDeviceManager.saveStep, devSaveEvents, blockContrib, netContrib,
        vsockValue, balloonValue, entropyValue, mmdsContrib, optFirst]

theorem pci_saveStep_eq (acc : PciDevicesState × List SaveEvent) (d : VirtioDev) :
    PciDevices.saveStep acc d =
      ({ pci_enabled := acc.1.pci_enabled
         block_devices := acc.1.block_devices ++ blockContrib VirtioDev.toPciState d
         net_devices := acc.1.net_devices ++ netContrib VirtioDev.toPciState d
         vsock_device := optFirst (vsockValue VirtioDev.toPciState d) acc.1.vsock_device
         balloon_device :=
           optFirst (balloonValue VirtioDev.toPciState d) acc.1.balloon_device
         mmds := optFirst acc.1.mmds (mmdsContrib d)
         entropy_device :=
           optFirst (entropyValue VirtioDev.toPciState d) acc.1.entropy_device },
       acc.2 ++ devSaveEvents d) := by
  obtain ⟨⟨pe, bl, nets, vs, ba, mm, en⟩, evs⟩ := acc
  obtain ⟨k, id, act, vu, ns, pl, vr, vf, mt, rs, pt⟩ := d
  cases k
  case balloon =>
    cases mm <;>
      simp [PciDevices.saveStep, devSaveEvents, blockContrib, netContrib,
        vsockValue, balloonValue, entropyValue, mmdsContrib, optFirst]
  case block =>
    cases vu <;> cases mm <;>
      simp [PciDevices.saveStep, devSaveEvents, blockContrib, netContrib,
        vsockValue, balloonValue, entropyValue, mmdsContrib, optFirst]
  case net =>
    cases ns <;> cases mm <;>
      simp [PciDevices.saveStep, devSaveEvents, blockContrib, netContrib,
        vsockValue, balloonValue, entropyValue, mmdsContrib, optFirst]
  case vsock =>
    cases act <;> cases vf <;> cases mm <;>
      simp [PciDevices.saveStep, devSaveEvents, blockContrib, netContrib,
        vsockValue, balloonValue, entropyValue, mmdsContrib, optFirst,
        VirtioDev.vsockNotified, VirtioDev.sendTransportResetEvent]
  case entropy =>
    cases mm <;>
      simp [PciDevices.saveStep, devSaveEvents, blockContrib, netContrib,
        vsockValue, balloonValue, entropyValue, mmdsContrib, optFirst]

theorem mmio_saveLoop_eq (t : List VirtioDev) (acc : DeviceStates × List SaveEvent) :
    t.foldl MmioDeviceManager.saveStep acc =
      ({ block_devices :=
           acc.1.block_devices ++ t.flatMap (blockContrib VirtioDev.toMmioState)
         net_devices := acc.1.net_devices ++ t.flatMap (netContrib VirtioDev.toMmioState)
         vsock_device :=
           optFirst (lastContrib (vsockValue VirtioDev.toMmioState) t) acc.1.vsock_device
         balloon_device :=
           optFirst (lastContrib (balloonValue VirtioDev.toMmioState) t)
             acc.1.balloon_device
         mmds := optFirst acc.1.mmds (firstContrib mmdsContrib t)
         entropy_device :=
           optFirst (lastContrib (entropyValue VirtioDev.toMmioState) t)
             acc.1.entropy_device },
       acc.2 ++ t.flatMap devSaveEvents) := by
  induction t generalizing acc with
  | nil =>
      obtain ⟨⟨bl, nets, vs, ba, mm, en⟩, evs⟩ := acc
      simp [lastContrib, firstContrib, optFirst_none_left, optFirst_none_right]
  | cons d t ih =>
      rw [List.foldl_cons, mmio_saveStep_eq, ih]
      simp only [lastContrib_cons, firstContrib_cons, optFirst_assoc,
        List.flatMap_cons, List.append_assoc]

theorem pci_saveLoop_eq (t : List VirtioDev) (acc : PciDevicesState × List SaveEvent) :
    t.foldl PciDevices.saveStep acc =
      ({ pci_enabled := acc.1.pci_enabled
         block_devices :=
           acc.1.block_devices ++ t.flatMap (blockContrib VirtioDev.toPciState)
         net_devices := acc.1.net_devices ++ t.flatMap (netContrib VirtioDev.toPciState)
         vsock_device :=
           optFirst (lastContrib (vsockValue VirtioDev.toPciState) t) acc.1.vsock_device
         balloon_device :=
           optFirst (lastContrib (balloonValue VirtioDev.toPciState) t)
             acc.1.balloon_device
         mmds := optFirst acc.1.mmds (firstContrib mmdsContrib t)
         entropy_device :=
           optFirst (lastContrib (entropyValue VirtioDev.toPciState) t)
             acc.1.entropy_device },
       acc.2 ++ t.flatMap devSaveEvents) := by
  induction t generalizing acc with
  | nil =>
      obtain ⟨⟨pe, bl, nets, vs, ba, mm, en⟩, evs⟩ := acc
      simp [lastContrib, firstContrib, optFirst_none_left, optFirst_none_right]
  | cons d t ih =>
      rw [List.foldl_cons, pci_saveStep_eq, ih]
      simp only [lastContrib_cons, firstContrib_cons, optFirst_assoc,
        List.flatMap_cons, List.append_assoc]

theorem mmio_save_eq (t : List VirtioDev) :
    MmioDeviceManager.save t =
      ({ block_devices := t.flatMap (blockContrib VirtioDev.toMmioState)
         net_devices := t.flatMap (netContrib VirtioDev.toMmioState)
         vsock_device := lastContrib (vsockValue VirtioDev.toMmioState) t
         balloon_device := lastContrib (balloonValue VirtioDev.toMmioState) t
         mmds := firstContrib mmdsContrib t
         entropy_device := lastContrib (entropyValue VirtioDev.toMmioState) t },
       t.flatMap devSaveEvents) := by
  unfold MmioDeviceManager.save
  rw [mmio_saveLoop_eq]
  simp [DeviceStates.empty, optFirst_none_left, optFirst_none_right]

theorem pci_save_eq (t : List VirtioDev) :
    PciDevices.save true t =
      ({ pci_enabled := true
         block_devices := t.flatMap (blockContrib VirtioDev.toPciState)
         net_devices := t.flatMap (netContrib VirtioDev.toPciState)
         vsock_device := lastContrib (vsockValue VirtioDev.toPciState) t
         balloon_device := lastContrib (balloonValue VirtioDev.toPciState) t
         mmds := firstContrib mmdsContrib t
         entropy_device := lastContrib (entropyValue VirtioDev.toPciState) t },
       t.flatMap devSaveEvents) := by
  unfold PciDevices.save
  rw [if_pos rfl, pci_saveLoop_eq]
  simp [PciDevicesState.empty, optFirst_none_left, optFirst_none_right]

theorem lastContrib_nil (f : VirtioDev → Option β) : lastContrib f [] = none := rfl

theorem lastContrib_filter (f : VirtioDev → Option β) (p : VirtioDev → Bool)
    (hf : ∀ d, p d = false → f d = none) (t : List VirtioDev) :
    lastContrib f t = lastContrib f (t.filter p) := by
  induction t with
  | nil => rfl
  | cons d t ih =>
      rw [lastContrib_cons, List.filter_cons]
      cases hp : p d with
      | true =>
          rw [if_pos rfl, lastContrib_cons, ih]
      | false =>
          rw [if_neg (by simp), hf d hp, optFirst_none_right, ih]

theorem firstContrib_mmds_eq_firstNetMmds (t : List VirtioDev) :
    firstContrib mmdsContrib t = firstNetMmds t := by
  induction t with
  | nil => rfl
  | cons d t ih =>
      rw [firstContrib_cons]
      unfold firstNetMmds
      rw [List.find?_cons]
      cases hcond : (decide (d.kind = DeviceKind.net) && d.mmds_ns.isSome) with
      | true =>
          simp only [Bool.and_eq_true, decide_eq_true_eq] at hcond
          obtain ⟨hk, hs⟩ := hcond
          obtain ⟨v, hv⟩ := Option.isSome_iff_exists.mp hs
          simp [optFirst, mmdsContrib, hk, hv]
      | false =>
          have hcontrib : mmdsContrib d = none := by
            by_cases hk : d.kind = DeviceKind.net
            · cases hns : d.mmds_ns with
              | some v =>
                  rw [show (decide (d.kind = DeviceKind.net) && d.mmds_ns.isSome) = true by
                    simp [hk, hns]] at hcond
                  exact Bool.noConfusion hcond
              | none => simp [mmdsContrib, hns]
            · simp [mmdsContrib, hk]
          rw [hcontrib, optFirst_none_left, ih]
          rfl

theorem flatMap_ite_eq_filter_map {α β : Type} (p : α → Prop) [DecidablePred p]
    (g : α → β) (t : List α) :
    (t.flatMap fun d => if p d then [g d] else []) =
      (t.filter fun d => decide (p d)).map g := by
  induction t with
  | nil => rfl
  | cons d t ih => by_cases hp : p d <;> simp [hp, ih]

theorem count_filter_zero {α : Type} [BEq α] [LawfulBEq α] (a : α) (p : α → Bool)
    (l : List α) (h : p a = false) : (l.filter p).count a = 0 := by
  rw [List.count_eq_zero]
  intro hm
  have h2 := (List.mem_filter.mp hm).2
  rw [h] at h2
  exact Bool.noConfusion h2

theorem five_kind_filter_perm (t : List VirtioDev) :
    List.Perm
      (t.filter (fun d => decide (d.kind = DeviceKind.balloon)) ++
        t.filter (fun d => decide (d.kind = DeviceKind.block)) ++
        t.filter (fun d => decide (d.kind = DeviceKind.net)) ++
        t.filter (fun d => decide (d.kind = DeviceKind.vsock)) ++
        t.filter (fun d => decide (d.kind = DeviceKind.entropy))) t := by
  rw [List.perm_iff_count]
  intro a
  simp only [List.count_append]
  have hz : ∀ k : DeviceKind, a.kind ≠ k →
      (t.filter fun d => decide (d.kind = k)).count a = 0 := by
    intro k hk
    exact count_filter_zero a _ t (by simp [hk])
  have hc : ∀ k : DeviceKind, a.kind = k →
      (t.filter fun d => decide (d.kind = k)).count a = t.count a := by
    intro k hk
    exact List.count_filter (by simp [hk])
  cases ha : a.kind
  case balloon =>
    rw [hc DeviceKind.balloon ha, hz DeviceKind.block (by simp [ha]),
      hz DeviceKind.net (by simp [ha]), hz DeviceKind.vsock (by simp [ha]),
      hz DeviceKind.entropy (by simp [ha])]
    omega
  case block =>
    rw [hc DeviceKind.block ha, hz DeviceKind.balloon (by simp [ha]),
      hz DeviceKind.net (by simp [ha]), hz DeviceKind.vsock (by simp [ha]),
      hz DeviceKind.entropy (by simp [ha])]
    omega
  case net =>
    rw [hc DeviceKind.net ha, hz DeviceKind.balloon (by simp [ha]),
      hz DeviceKind.block (by simp [ha]), hz DeviceKind.vsock (by simp [ha]),
      hz DeviceKind.entropy (by simp [ha])]
    omega
  case vsock =>
    rw [hc DeviceKind.vsock ha, hz DeviceKind.balloon (by simp [ha]),
      hz DeviceKind.block (by simp [ha]), hz DeviceKind.net (by simp [ha]),
      hz DeviceKind.entropy (by simp [ha])]
    omega
  case entropy =>
    rw [hc DeviceKind.entropy ha, hz DeviceKind.balloon (by simp [ha]),
      hz DeviceKind.block (by simp [ha]), hz DeviceKind.net (by simp [ha]),
      hz DeviceKind.vsock (by simp [ha])]
    omega
/- ------------------------------------------------------------------ -/
/- Claims about the save traversals                                   -/
/- ------------------------------------------------------------------ -/

theorem resetSent_mem_devSaveEvents (x : VirtioDev)
    (h : SaveEvent.vsockResetSent ∈ devSaveEvents x) :
    x.kind = DeviceKind.vsock ∧ x.activated = true := by
  unfold devSaveEvents at h
  cases hx : x.kind <;> rw [hx] at h <;>
    cases ha : x.activated <;> cases hf : x.vsock_reset_fails <;>
      cases hv : x.is_vhost_user <;> simp [ha, hf, hv] at h <;> simp [ha]

/-- Claim C4: during save, the metadata-service record is written at most
once: it equals the record supplied by the first traversed net device
carrying a namespace reference (in both the MMIO and the PCI save), and a
save step never overwrites an already-written record. -/
theorem mmds_record_written_at_most_once (t : List VirtioDev)
    (acc : DeviceStates × List SaveEvent) (accP : PciDevicesState × List SaveEvent)
    (d : VirtioDev) (m : MmdsState) :
    ((MmioDeviceManager.save t).1.mmds = firstNetMmds t) ∧
      ((PciDevices.save true t).1.mmds = firstNetMmds t) ∧
      (acc.1.mmds = some m → (MmioDeviceManager.saveStep acc d).1.mmds = some m) ∧
      (accP.1.mmds = some m → (PciDevices.saveStep accP d).1.mmds = some m) := by
  refine ⟨?_, ?_, ?_, ?_⟩
  · rw [mmio_save_eq]
    exact firstContrib_mmds_eq_firstNetMmds t
  · rw [pci_save_eq]
    exact firstContrib_mmds_eq_firstNetMmds t
  · intro h
    rw [mmio_saveStep_eq]
    show optFirst acc.1.mmds (mmdsContrib d) = some m
    rw [h]
    rfl
  · intro h
    rw [pci_saveStep_eq]
    show optFirst accP.1.mmds (mmdsContrib d) = some m
    rw [h]
    rfl

/-- Witness for C4: a step applied to an accumulator that already holds a
record leaves that record unchanged, in both registries. -/
theorem mmds_record_written_at_most_once_witness :
    (({ DeviceStates.empty with mmds := some sampleMmds }, ([] : List SaveEvent)).1.mmds =
        some sampleMmds) ∧
      (({ PciDevicesState.empty with mmds := some sampleMmds },
          ([] : List SaveEvent)).1.mmds = some sampleMmds) ∧
      ((MmioDeviceManager.saveStep
          ({ DeviceStates.empty with mmds := some sampleMmds }, [])
          ({ sampleDev DeviceKind.net "n2" with
              mmds_ns := some { version := 9, imds_compat := true } })).1.mmds =
        some sampleMmds) ∧
      ((PciDevices.saveStep
          ({ PciDevicesState.empty with mmds := some sampleMmds }, [])
          ({ sampleDev DeviceKind.net "n2" with
              mmds_ns := some { version := 9, imds_compat := true } })).1.mmds =
        some sampleMmds) :=
  ⟨rfl, rfl,
    (mmds_record_written_at_most_once []
        ({ DeviceStates.empty with mmds := some sampleMmds }, [])
        ({ PciDevicesState.empty with mmds := some sampleMmds }, [])
        ({ sampleDev DeviceKind.net "n2" with
            mmds_ns := some { version := 9, imds_compat := true } })
        sampleMmds).2.2.1 rfl,
    (mmds_record_written_at_most_once []
        ({ DeviceStates.empty with mmds := some sampleMmds }, [])
        ({ PciDevicesState.empty with mmds := some sampleMmds }, [])
        ({ sampleDev DeviceKind.net "n2" with
            mmds_ns := some { version := 9, imds_compat := true } })
        sampleMmds).2.2.2 rfl⟩

/-- Claim C5: a vhost-user-backed block device is absent from the snapshot:
the saved block list ranges over exactly the non-vhost-user block devices, a
skip warning is emitted for the vhost-user device, save completes without an
error, and all net devices are still captured; this holds for the MMIO and
the PCI save alike. -/
theorem vhost_user_block_excluded_from_snapshot (t : List VirtioDev) (d : VirtioDev)
    (hd : d ∈ t) (hk : d.kind = DeviceKind.block) (hvu : d.is_vhost_user = true) :
    ((MmioDeviceManager.save t).1.block_devices =
        (t.filter fun x =>
            decide (x.kind = DeviceKind.block ∧ x.is_vhost_user = false)).map
          VirtioDev.toMmioState) ∧
      (SaveEvent.warnVhostUserSkipped ∈ (MmioDeviceManager.save t).2) ∧
      ((MmioDeviceManager.save t).1.net_devices =
        (t.filter fun x => decide (x.kind = DeviceKind.net)).map VirtioDev.toMmioState) ∧
      ((PciDevices.save true t).1.block_devices =
        (t.filter fun x =>
            decide (x.kind = DeviceKind.block ∧ x.is_vhost_user = false)).map
          VirtioDev.toPciState) ∧
      (SaveEvent.warnVhostUserSkipped ∈ (PciDevices.save true t).2) ∧
      ((PciDevices.save true t).1.net_devices =
        (t.filter fun x => decide (x.kind = DeviceKind.net)).map VirtioDev.toPciState) := by
  have hwarn : SaveEvent.warnVhostUserSkipped ∈ devSaveEvents d := by
    unfold devSaveEvents
    rw [hk, hvu]
    simp
  have hmem : SaveEvent.warnVhostUserSkipped ∈ t.flatMap devSaveEvents :=
    List.mem_flatMap.mpr ⟨d, hd, hwarn⟩
  refine ⟨?_, ?_, ?_, ?_, ?_, ?_⟩
  · rw [mmio_save_eq]
    exact flatMap_ite_eq_filter_map _ _ t
  · rw [mmio_save_eq]
    exact hmem
  · rw [mmio_save_eq]
    exact flatMap_ite_eq_filter_map _ _ t
  · rw [pci_save_eq]
    exact flatMap_ite_eq_filter_map _ _ t
  · rw [pci_save_eq]
    exact hmem
  · rw [pci_save_eq]
    exact flatMap_ite_eq_filter_map _ _ t

/-- Witness for C5 at a topology holding a vhost-user block device next to an
ordinary block device and a net device. -/
theorem vhost_user_block_excluded_from_snapshot_witness :
    (({ sampleDev DeviceKind.block "vublk" with is_vhost_user := true } ∈
        vhostTopology) ∧
      ({ sampleDev DeviceKind.block "vublk" with
          is_vhost_user := true } : VirtioDev).kind = DeviceKind.block ∧
      ({ sampleDev DeviceKind.block "vublk" with
          is_vhost_user := true } : VirtioDev).is_vhost_user = true) ∧
      (((MmioDeviceManager.save vhostTopology).1.block_devices =
          (vhostTopology.filter fun x =>
              decide (x.kind = DeviceKind.block ∧ x.is_vhost_user = false)).map
            VirtioDev.toMmioState) ∧
        (SaveEvent.warnVhostUserSkipped ∈ (MmioDeviceManager.save vhostTopology).2) ∧
        ((MmioDeviceManager.save vhostTopology).1.net_devices =
          (vhostTopology.filter fun x => decide (x.kind = DeviceKind.net)).map
            VirtioDev.toMmioState) ∧
        ((PciDevices.save true vhostTopology).1.block_devices =
          (vhostTopology.filter fun x =>
              decide (x.kind = DeviceKind.block ∧ x.is_vhost_user = false)).map
            VirtioDev.toPciState) ∧
        (SaveEvent.warnVhostUserSkipped ∈ (PciDevices.save true vhostTopology).2) ∧
        ((PciDevices.save true vhostTopology).1.net_devices =
          (vhostTopology.filter fun x => decide (x.kind = DeviceKind.net)).map
            VirtioDev.toPciState)) :=
  ⟨⟨by decide, rfl, rfl⟩,
    vhost_user_block_excluded_from_snapshot vhostTopology
      { sampleDev DeviceKind.block "vublk" with is_vhost_user := true }
      (by decide) rfl rfl⟩


/-- Claim C9: during save, the vsock device is sent a transport-reset
notification exactly when it is activated, the notification precedes the
state capture, a delivery failure is logged and never propagated, and the
captured vsock state is the post-notification state; save always completes
and always records the vsock device.  Both the MMIO and the PCI save are
covered. -/
theorem vsock_save_reset_notification (t : List VirtioDev) (d : VirtioDev)
    (hfv : t.filter (fun x => decide (x.kind = DeviceKind.vsock)) = [d]) :
    ((SaveEvent.vsockResetSent ∈ (MmioDeviceManager.save t).2) ↔ d.activated = true) ∧
      ((MmioDeviceManager.save t).1.vsock_device = some d.vsockNotified.toMmioState) ∧
      (d.activated = true →
        List.Sublist
          (if d.vsock_reset_fails then
            [SaveEvent.vsockResetSent, SaveEvent.vsockResetErrorLogged,
              SaveEvent.captured DeviceKind.vsock d.device_id]
          else
            [SaveEvent.vsockResetSent, SaveEvent.captured DeviceKind.vsock d.device_id])
          ((MmioDeviceManager.save t).2)) ∧
      ((SaveEvent.vsockResetSent ∈ (PciDevices.save true t).2) ↔ d.activated = true) ∧
      ((PciDevices.save true t).1.vsock_device = some d.vsockNotified.toPciState) ∧
      (d.activated = true →
        List.Sublist
          (if d.vsock_reset_fails then
            [SaveEvent.vsockResetSent, SaveEvent.vsockResetErrorLogged,
              SaveEvent.captured DeviceKind.vsock d.device_id]
          else
            [SaveEvent.vsockResetSent, SaveEvent.captured DeviceKind.vsock d.device_id])
          ((PciDevices.save true t).2)) := by
  have hdf : d ∈ t.filter (fun x => decide (x.kind = DeviceKind.vsock)) := by
    rw [hfv]
    exact List.mem_singleton_self d
  have hd : d ∈ t := List.mem_of_mem_filter hdf
  have hdk : d.kind = DeviceKind.vsock :=
    of_decide_eq_true (List.mem_filter.mp hdf).2
  have huniq : ∀ x ∈ t, x.kind = DeviceKind.vsock → x = d := by
    intro x hx hxk
    have : x ∈ t.filter (fun x => decide (x.kind = DeviceKind.vsock)) :=
      List.mem_filter.mpr ⟨hx, by simp [hxk]⟩
    rw [hfv] at this
    exact List.mem_singleton.mp this
  have hiff : (SaveEvent.vsockResetSent ∈ t.flatMap devSaveEvents) ↔ d.activated = true := by
    constructor
    · intro h
      obtain ⟨x, hx, hev⟩ := List.mem_flatMap.mp h
      obtain ⟨hxk, hxa⟩ := resetSent_mem_devSaveEvents x hev
      rw [← huniq x hx hxk]
      exact hxa
    · intro ha
      refine List.mem_flatMap.mpr ⟨d, hd, ?_⟩
      unfold devSaveEvents
      rw [hdk, ha]
      simp
  have hvsock : lastContrib (vsockValue VirtioDev.toMmioState) t =
      some d.vsockNotified.toMmioState := by
    rw [lastContrib_filter (vsockValue VirtioDev.toMmioState)
        (fun x => decide (x.kind = DeviceKind.vsock))
        (by
          intro x hx
          unfold vsockValue
          rw [if_neg (by simpa using hx)]) t,
      hfv, lastContrib_cons, lastContrib_nil, optFirst_none_left]
    unfold vsockValue
    rw [if_pos hdk]
  have hvsockP : lastContrib (vsockValue VirtioDev.toPciState) t =
      some d.vsockNotified.toPciState := by
    rw [lastContrib_filter (vsockValue VirtioDev.toPciState)
        (fun x => decide (x.kind = DeviceKind.vsock))
        (by
          intro x hx
          unfold vsockValue
          rw [if_neg (by simpa using hx)]) t,
      hfv, lastContrib_cons, lastContrib_nil, optFirst_none_left]
    unfold vsockValue
    rw [if_pos hdk]
  have hsub : d.activated = true →
      List.Sublist
        (if d.vsock_reset_fails then
          [SaveEvent.vsockResetSent, SaveEvent.vsockResetErrorLogged,
            SaveEvent.captured DeviceKind.vsock d.device_id]
        else
          [SaveEvent.vsockResetSent, SaveEvent.captured DeviceKind.vsock d.device_id])
        (t.flatMap devSaveEvents) := by
    intro ha
    obtain ⟨t1, t2, rfl⟩ := List.mem_iff_append.mp hd
    rw [List.flatMap_append, List.flatMap_cons]
    have hblock :
        (if d.vsock_reset_fails then
          [SaveEvent.vsockResetSent, SaveEvent.vsockResetErrorLogged,
            SaveEvent.captured DeviceKind.vsock d.device_id]
        else
          [SaveEvent.vsockResetSent, SaveEvent.captured DeviceKind.vsock d.device_id]) =
          devSaveEvents d := by
      unfold devSaveEvents
      rw [hdk, ha]
      cases hfl : d.vsock_reset_fails <;> simp
    rw [hblock]
    exact ((List.sublist_append_left (devSaveEvents d) (t2.flatMap devSaveEvents)).trans
      (List.sublist_append_right (t1.flatMap devSaveEvents) _))
  refine ⟨?_, ?_, ?_, ?_, ?_, ?_⟩
  · rw [mmio_save_eq]
    exact hiff
  · rw [mmio_save_eq]
    exact hvsock
  · rw [mmio_save_eq]
    exact hsub
  · rw [pci_save_eq]
    exact hiff
  · rw [pci_save_eq]
    exact hvsockP
  · rw [pci_save_eq]
    exact hsub

/-- Witness for C9 at a topology whose activated vsock device fails to
deliver the reset notification. -/
theorem vsock_save_reset_notification_witness :
    (vsockFailTopology.filter (fun x => decide (x.kind = DeviceKind.vsock)) =
        [{ sampleDev DeviceKind.vsock "vs" with
            vsock_after_reset := 7
            vsock_reset_fails := true }]) ∧
      ((SaveEvent.vsockResetSent ∈ (MmioDeviceManager.save vsockFailTopology).2) ↔
        ({ sampleDev DeviceKind.vsock "vs" with
            vsock_after_reset := 7
            vsock_reset_fails := true } : VirtioDev).activated = true) :=
  ⟨by decide,
    (vsock_save_reset_notification vsockFailTopology
        { sampleDev DeviceKind.vsock "vs" with
            vsock_after_reset := 7
            vsock_reset_fails := true }
        (by decide)).1⟩


/- ------------------------------------------------------------------ -/
/- Claims about the restore paths                                     -/
/- ------------------------------------------------------------------ -/

theorem map_optionToList (o : Option α) (g : α → β) (f : β → γ) :
    (optionToList o g).map f = optionToList o (fun e => f (g e)) := by
  cases o <;> rfl

/-- Claim C2: restore is deterministic in its resource assignments.  Runs of
restore under different allocator states produce identical resource
assignments, and every assignment is exactly the one recorded in the
snapshot: the MMIO bus regions and interrupt lines come from the saved
device_info fields, the PCI BDF, MSI-X vector group and BAR region come from
the saved transport state, and the generation-ID device reuses the saved
(Gsi, address) pair for every random input. -/
theorem restore_resources_deterministic (a1 a2 : Nat) (r : VmResources)
    (s : DeviceStates) (sp : PciDevicesState) (rand : Nat) (st : VMGenIDState) :
    ((MmioDeviceManager.restore a1 r s).1.map VirtioDev.resources =
        (MmioDeviceManager.restore a2 r s).1.map VirtioDev.resources) ∧
      ((MmioDeviceManager.restore a1 r s).1.map VirtioDev.resources =
        recordedMmioResources s) ∧
      ((PciDevices.restore a1 r sp).1.map devPciResources =
        (PciDevices.restore a2 r sp).1.map devPciResources) ∧
      ((PciDevices.restore a1 r sp).1.map devPciResources = recordedPciResources sp) ∧
      ((VmGenId.restore rand st).1.gsi = st.gsi) ∧
      ((VmGenId.restore rand st).1.guest_address = st.addr) := by
  refine ⟨rfl, ?_, rfl, ?_, rfl, rfl⟩
  · simp only [MmioDeviceManager.restore, recordedMmioResources, List.map_append,
      map_optionToList, List.map_map]
    rfl
  · by_cases hp : sp.pci_enabled = true
    · simp only [PciDevices.restore, recordedPciResources, hp, if_pos, if_true,
        List.map_append, map_optionToList, List.map_map]
      rfl
    · simp only [PciDevices.restore, recordedPciResources, hp, if_false,
        Bool.false_eq_true, List.map_nil]

/-- Counterexample for C7 as stated: at the device restored from the saved
state (gsi 1, addr 8) under random input 7, the do_post_restore call leaves
the device state (and in particular the generation value, already fixed at
restore time) completely unchanged and only raises the interrupt, so
post_restore does not regenerate the generation value. -/
theorem post_restore_does_not_regenerate :
    ((VmGenId.restore 7 { gsi := 1, addr := 8 }).1.gen_id = 7) ∧
      ((VmGenId.do_post_restore (VmGenId.restore 7 { gsi := 1, addr := 8 }).1).1 =
        (VmGenId.restore 7 { gsi := 1, addr := 8 }).1) ∧
      ((VmGenId.do_post_restore (VmGenId.restore 7 { gsi := 1, addr := 8 }).1).2 =
        [VmGenIdEvent.interruptTriggered]) :=
  ⟨by decide, rfl, rfl⟩

/-- Claim C7 as amended: restore rebuilds the generation-ID device with
exactly the saved (Gsi, address) pair and no guest-visible effect, drawing
the fresh 128-bit random generation value at reconstruction time; the later
do_post_restore call raises the device interrupt exactly once per invocation
and leaves the device state, including the generation value, unchanged. -/
theorem vmgenid_restore_semantics (rand : Nat) (st : VMGenIDState) (d : VmGenId) :
    ((VmGenId.restore rand st).1.gsi = st.gsi) ∧
      ((VmGenId.restore rand st).1.guest_address = st.addr) ∧
      ((VmGenId.restore rand st).1.gen_id = rand % 2 ^ 128) ∧
      ((VmGenId.restore rand st).2 = []) ∧
      (VmGenId.do_post_restore d = (d, [VmGenIdEvent.interruptTriggered])) :=
  ⟨rfl, rfl, rfl, rfl, rfl⟩

/-- Counterexample for C8 as stated: on the MMIO restore path, a snapshot
with no explicit metadata-service record whose only net device carries the
legacy namespace marker is restored without initializing any default
configuration: the shared resource table still has no record when the net
device is rebuilt, and the restored net device binds no shared handle. -/
theorem mmio_restore_no_default_mmds_counterexample :
    (mmioMarkerSnapshot.mmds = none) ∧
      (mmioMarkerSnapshot.net_devices.any (fun e => e.device_state.has_mmds_ns) = true) ∧
      ((MmioDeviceManager.restore 0 { mmds := none } mmioMarkerSnapshot).2.mmds =
        none) ∧
      ((MmioDeviceManager.restore 0 { mmds := none } mmioMarkerSnapshot).1.map
          VirtioDev.mmds_ns = [none]) := by
  refine ⟨rfl, rfl, rfl, ?_⟩
  decide

/-- Claim C8 as amended: the PCI restore path initializes the default
metadata-service configuration before restoring any net device whenever no
explicit record was saved but a saved net state carries the legacy namespace
marker; the MMIO restore path initializes the configuration only from an
explicitly saved record and otherwise leaves the resource table as it was. -/
theorem restore_mmds_init_amended (a : Nat) (r : VmResources) (s : PciDevicesState)
    (a2 : Nat) (r2 : VmResources) (s2 : DeviceStates) :
    (s.pci_enabled = true → s.mmds = none →
        (s.net_devices.any fun e => e.device_state.has_mmds_ns) = true →
        (PciDevices.restore a r s).2.mmds =
          some (r.mmds.getD MmdsState.defaultConfig)) ∧
      ((MmioDeviceManager.restore a2 r2 s2).2.mmds =
        match s2.mmds with
        | some m => some m
        | none => r2.mmds) := by
  constructor
  · intro hp hm hn
    simp only [PciDevices.restore, hp, if_true, hm, hn, VmResources.mmdsOrDefault]
  · simp only [MmioDeviceManager.restore]
    cases hm2 : s2.mmds <;> simp [VmResources.setMmdsBasicConfig]

/-- Witness for C8 as amended at the PCI marker snapshot. -/
theorem restore_mmds_init_amended_witness :
    (pciMarkerSnapshot.pci_enabled = true) ∧ (pciMarkerSnapshot.mmds = none) ∧
      ((pciMarkerSnapshot.net_devices.any fun e => e.device_state.has_mmds_ns) = true) ∧
      ((PciDevices.restore 0 { mmds := none } pciMarkerSnapshot).2.mmds =
        some (({ mmds := none } : VmResources).mmds.getD MmdsState.defaultConfig)) :=
  ⟨rfl, rfl, rfl,
    (restore_mmds_init_amended 0 { mmds := none } pciMarkerSnapshot 0 { mmds := none }
        DeviceStates.empty).1 rfl rfl rfl⟩


/- ------------------------------------------------------------------ -/
/- Claims about the device manager registries and restore ordering    -/
/- ------------------------------------------------------------------ -/

theorem applyAttaches_preserves (dm : DeviceManager) (ds : List VirtioDev)
    (h : dm.pci_enabled = true) :
    (dm.applyAttaches ds).pci_enabled = true ∧
      (dm.applyAttaches ds).mmio_devices = dm.mmio_devices := by
  induction ds generalizing dm with
  | nil => exact ⟨h, rfl⟩
  | cons d ds ih =>
      have hstep : dm.attachVirtioDevice d =
          { dm with
              pci_devices := assocInsert (d.kind, d.device_id) d dm.pci_devices } := by
        unfold DeviceManager.attachVirtioDevice
        rw [if_pos h]
      show (DeviceManager.applyAttaches (dm.attachVirtioDevice d) ds).pci_enabled = true ∧
        (DeviceManager.applyAttaches (dm.attachVirtioDevice d) ds).mmio_devices =
          dm.mmio_devices
      rw [hstep]
      exact ih _ h

theorem assocFind_assocInsert (k : DeviceKey) (v : VirtioDev)
    (l : List (DeviceKey × VirtioDev)) : assocFind k (assocInsert k v l) = some v := by
  unfold assocFind assocInsert
  rw [List.find?_append]
  have h1 : (l.filter fun p => decide (p.1 = k) = false).find?
      (fun p => decide (p.1 = k)) = none := by
    rw [List.find?_eq_none]
    intro p hp
    have h2 := (List.mem_filter.mp hp).2
    simp at h2 ⊢
    exact h2
  rw [h1]
  simp

theorem assocFind_mem (k : DeviceKey) (l : List (DeviceKey × VirtioDev)) (v : VirtioDev)
    (h : assocFind k l = some v) : ∃ p, p ∈ l ∧ p.1 = k ∧ p.2 = v := by
  unfold assocFind at h
  cases hf : l.find? (fun p => decide (p.1 = k)) with
  | none => rw [hf] at h; exact Option.noConfusion h
  | some p =>
      rw [hf] at h
      have hmem := List.mem_of_find?_eq_some hf
      have hpred := List.find?_some hf
      exact ⟨p, hmem, of_decide_eq_true hpred, Option.some.inj h⟩

/-- Claim C3: once PCI mode has been enabled, every subsequent sequence of
attach_virtio_device calls leaves the manager in PCI mode and leaves the
MMIO registry untouched, get_virtio_device answers every lookup from the PCI
registry alone, and hence any device it returns is held in the PCI
registry. -/
theorem pci_mode_excludes_mmio_registry (dm : DeviceManager) (ds : List VirtioDev)
    (h : dm.pci_enabled = true) :
    ((dm.applyAttaches ds).pci_enabled = true) ∧
      ((dm.applyAttaches ds).mmio_devices = dm.mmio_devices) ∧
      (∀ (k : DeviceKind) (id : String),
        (dm.applyAttaches ds).getVirtioDevice k id =
          assocFind (k, id) (dm.applyAttaches ds).pci_devices) ∧
      (∀ (k : DeviceKind) (id : String) (dev : VirtioDev),
        (dm.applyAttaches ds).getVirtioDevice k id = some dev →
          ∃ p, p ∈ (dm.applyAttaches ds).pci_devices ∧ p.1 = (k, id) ∧ p.2 = dev) ∧
      (∀ d2 : VirtioDev,
        ((dm.applyAttaches ds).attachVirtioDevice d2).pci_devices =
          assocInsert (d2.kind, d2.device_id) d2 (dm.applyAttaches ds).pci_devices ∧
        ((dm.applyAttaches ds).attachVirtioDevice d2).mmio_devices =
          (dm.applyAttaches ds).mmio_devices ∧
        ((dm.applyAttaches ds).attachVirtioDevice d2).getVirtioDevice d2.kind
          d2.device_id = some d2) := by
  obtain ⟨he, hm⟩ := applyAttaches_preserves dm ds h
  have hstep : ∀ d2 : VirtioDev,
      (dm.applyAttaches ds).attachVirtioDevice d2 =
        { dm.applyAttaches ds with
            pci_devices := assocInsert (d2.kind, d2.device_id) d2
              (dm.applyAttaches ds).pci_devices } := by
    intro d2
    unfold DeviceManager.attachVirtioDevice
    rw [if_pos he]
  refine ⟨he, hm, ?_, ?_, ?_⟩
  · intro k id
    unfold DeviceManager.getVirtioDevice
    rw [if_pos he]
  · intro k id dev hget
    unfold DeviceManager.getVirtioDevice at hget
    rw [if_pos he] at hget
    exact assocFind_mem _ _ _ hget
  · intro d2
    have hepost : ((dm.applyAttaches ds).attachVirtioDevice d2).pci_enabled = true := by
      rw [hstep d2]
      exact he
    refine ⟨by rw [hstep d2], by rw [hstep d2], ?_⟩
    unfold DeviceManager.getVirtioDevice
    rw [if_pos hepost, hstep d2]
    exact assocFind_assocInsert _ _ _

/-- Witness for C3 at a PCI-mode manager and a one-attach sequence. -/
theorem pci_mode_excludes_mmio_registry_witness :
    (enabledManager.pci_enabled = true) ∧
      (((enabledManager.applyAttaches [sampleDev DeviceKind.block "rootfs"]).pci_enabled =
          true) ∧
        ((enabledManager.applyAttaches
            [sampleDev DeviceKind.block "rootfs"]).mmio_devices =
          enabledManager.mmio_devices) ∧
        (∀ (k : DeviceKind) (id : String),
          (enabledManager.applyAttaches
              [sampleDev DeviceKind.block "rootfs"]).getVirtioDevice k id =
            assocFind (k, id)
              (enabledManager.applyAttaches
                [sampleDev DeviceKind.block "rootfs"]).pci_devices) ∧
        (∀ (k : DeviceKind) (id : String) (dev : VirtioDev),
          (enabledManager.applyAttaches
              [sampleDev DeviceKind.block "rootfs"]).getVirtioDevice k id = some dev →
            ∃ p, p ∈ (enabledManager.applyAttaches
                [sampleDev DeviceKind.block "rootfs"]).pci_devices ∧
              p.1 = (k, id) ∧ p.2 = dev) ∧
        (∀ d2 : VirtioDev,
          ((enabledManager.applyAttaches
              [sampleDev DeviceKind.block "rootfs"]).attachVirtioDevice d2).pci_devices =
            assocInsert (d2.kind, d2.device_id) d2
              (enabledManager.applyAttaches
                [sampleDev DeviceKind.block "rootfs"]).pci_devices ∧
          ((enabledManager.applyAttaches
              [sampleDev DeviceKind.block "rootfs"]).attachVirtioDevice d2).mmio_devices =
            (enabledManager.applyAttaches
              [sampleDev DeviceKind.block "rootfs"]).mmio_devices ∧
          ((enabledManager.applyAttaches
              [sampleDev DeviceKind.block "rootfs"]).attachVirtioDevice d2).getVirtioDevice
            d2.kind d2.device_id = some d2)) :=
  ⟨rfl, pci_mode_excludes_mmio_registry enabledManager
    [sampleDev DeviceKind.block "rootfs"] rfl⟩

theorem getElem?_append_ge {α : Type} (l1 l2 : List α) (j : Nat) (x : α)
    (h : (l1 ++ l2)[j]? = some x) (hx : x ∉ l1) : l1.length ≤ j := by
  by_contra hj
  push_neg at hj
  rw [List.getElem?_append_left hj] at h
  exact hx (List.getElem?_mem h)

theorem getElem?_append_lt {α : Type} (l1 l2 : List α) (i : Nat) (x : α)
    (h : (l1 ++ l2)[i]? = some x) (hx : x ∉ l2) : i < l1.length := by
  by_contra hi
  push_neg at hi
  rw [List.getElem?_append_right hi] at h
  exact hx (List.getElem?_mem h)

theorem restore_trace_shape (M P : List RestoreStep)
    (hM : ∀ x ∈ M, ∃ id, x = RestoreStep.mmioDevice id)
    (hP : ∀ x ∈ P, x = RestoreStep.pciSegmentAttached ∨
      ∃ id, x = RestoreStep.pciDevice id) :
    (([RestoreStep.legacyCreated] ++ M ++ [RestoreStep.acpiRestored] ++ P ++
        [RestoreStep.serialInit])[0]? = some RestoreStep.legacyCreated) ∧
      (([RestoreStep.legacyCreated] ++ M ++ [RestoreStep.acpiRestored] ++ P ++
          [RestoreStep.serialInit]).getLast? = some RestoreStep.serialInit) ∧
      (∀ (i j : Nat) (id1 : String),
        ([RestoreStep.legacyCreated] ++ M ++ [RestoreStep.acpiRestored] ++ P ++
            [RestoreStep.serialInit])[i]? = some (RestoreStep.mmioDevice id1) →
          ([RestoreStep.legacyCreated] ++ M ++ [RestoreStep.acpiRestored] ++ P ++
              [RestoreStep.serialInit])[j]? = some RestoreStep.acpiRestored →
          i < j) ∧
      (∀ (i j : Nat) (id2 : String),
        ([RestoreStep.legacyCreated] ++ M ++ [RestoreStep.acpiRestored] ++ P ++
            [RestoreStep.serialInit])[i]? = some RestoreStep.acpiRestored →
          ([RestoreStep.legacyCreated] ++ M ++ [RestoreStep.acpiRestored] ++ P ++
              [RestoreStep.serialInit])[j]? = some (RestoreStep.pciDevice id2) →
          i < j) := by
  refine ⟨?_, ?_, ?_, ?_⟩
  · simp
  · rw [List.getLast?_concat]
  · intro i j id1 hi hj
    have hresh : [RestoreStep.legacyCreated] ++ M ++ [RestoreStep.acpiRestored] ++ P ++
        [RestoreStep.serialInit] =
        ([RestoreStep.legacyCreated] ++ M) ++
          ([RestoreStep.acpiRestored] ++ (P ++ [RestoreStep.serialInit])) := by
      simp [List.append_assoc]
    rw [hresh] at hi hj
    have hlt : i < ([RestoreStep.legacyCreated] ++ M).length := by
      refine getElem?_append_lt _ _ i _ hi ?_
      intro hmem
      rcases List.mem_append.mp hmem with h1 | h2
      · rcases List.mem_singleton.mp h1 with h1
        exact RestoreStep.noConfusion h1
      · rcases List.mem_append.mp h2 with h3 | h4
        · rcases hP _ h3 with h5 | ⟨id, h5⟩ <;> exact RestoreStep.noConfusion h5
        · rcases List.mem_singleton.mp h4 with h4
          exact RestoreStep.noConfusion h4
    have hge : ([RestoreStep.legacyCreated] ++ M).length ≤ j := by
      refine getElem?_append_ge _ _ j _ hj ?_
      intro hmem
      rcases List.mem_append.mp hmem with h1 | h2
      · rcases List.mem_singleton.mp h1 with h1
        exact RestoreStep.noConfusion h1
      · rcases hM _ h2 with ⟨id, h3⟩
        exact RestoreStep.noConfusion h3
    omega
  · intro i j id2 hi hj
    have hresh : [RestoreStep.legacyCreated] ++ M ++ [RestoreStep.acpiRestored] ++ P ++
        [RestoreStep.serialInit] =
        (([RestoreStep.legacyCreated] ++ M) ++ [RestoreStep.acpiRestored]) ++
          (P ++ [RestoreStep.serialInit]) := by
      simp [List.append_assoc]
    rw [hresh] at hi hj
    have hlt : i < (([RestoreStep.legacyCreated] ++ M) ++
        [RestoreStep.acpiRestored]).length := by
      refine getElem?_append_lt _ _ i _ hi ?_
      intro hmem
      rcases List.mem_append.mp hmem with h1 | h2
      · rcases hP _ h1 with h3 | ⟨id, h3⟩ <;> exact RestoreStep.noConfusion h3
      · rcases List.mem_singleton.mp h2 with h2
        exact RestoreStep.noConfusion h2
    have hge : (([RestoreStep.legacyCreated] ++ M) ++
        [RestoreStep.acpiRestored]).length ≤ j := by
      refine getElem?_append_ge _ _ j _ hj ?_
      intro hmem
      rcases List.mem_append.mp hmem with h1 | h2
      · rcases List.mem_append.mp h1 with h3 | h4
        · rcases List.mem_singleton.mp h3 with h3
          exact RestoreStep.noConfusion h3
        · rcases hM _ h4 with ⟨id, h5⟩
          exact RestoreStep.noConfusion h5
      · rcases List.mem_singleton.mp h2 with h2
        exact RestoreStep.noConfusion h2
    omega

/-- Counterexample for C6 as stated: on a snapshot with PCI enabled and one
saved PCI device, DeviceManager::restore reconstructs the ACPI devices
before the PCI registry, so the ACPI devices are not reconstructed after the
virtio registry the snapshot enables. -/
theorem restore_order_acpi_before_pci_counterexample :
    (DeviceManager.restoreTrace 0 0 { mmds := none } pciEnabledSnapshot =
        [RestoreStep.legacyCreated, RestoreStep.acpiRestored,
          RestoreStep.pciSegmentAttached, RestoreStep.pciDevice "blk0",
          RestoreStep.serialInit]) ∧
      ¬ (∀ (i j : Nat) (id : String),
          (DeviceManager.restoreTrace 0 0 { mmds := none } pciEnabledSnapshot)[i]? =
              some RestoreStep.acpiRestored →
            (DeviceManager.restoreTrace 0 0 { mmds := none } pciEnabledSnapshot)[j]? =
              some (RestoreStep.pciDevice id) →
            j < i) := by
  constructor
  · decide
  · intro hcl
    have := hcl 1 3 "blk0" (by decide) (by decide)
    omega

/-- Claim C6 as amended: DeviceManager::restore performs its steps in the
order legacy devices, MMIO registry, ACPI devices, PCI registry, serial
initialization replay: the trace starts with the legacy step and ends with
the serial step, every MMIO device step precedes the ACPI step, and the ACPI
step precedes every PCI device step. -/
theorem restore_step_order (alloc rnd : Nat) (r : VmResources) (s : DevicesState) :
    ((DeviceManager.restoreTrace alloc rnd r s)[0]? =
        some RestoreStep.legacyCreated) ∧
      ((DeviceManager.restoreTrace alloc rnd r s).getLast? =
        some RestoreStep.serialInit) ∧
      (∀ (i j : Nat) (id1 : String),
        (DeviceManager.restoreTrace alloc rnd r s)[i]? =
            some (RestoreStep.mmioDevice id1) →
          (DeviceManager.restoreTrace alloc rnd r s)[j]? =
            some RestoreStep.acpiRestored →
          i < j) ∧
      (∀ (i j : Nat) (id2 : String),
        (DeviceManager.restoreTrace alloc rnd r s)[i]? =
            some RestoreStep.acpiRestored →
          (DeviceManager.restoreTrace alloc rnd r s)[j]? =
            some (RestoreStep.pciDevice id2) →
          i < j) := by
  have key := restore_trace_shape
    ((MmioDeviceManager.restore alloc r s.mmio_state).1.map
      fun d => RestoreStep.mmioDevice d.device_id)
    ((if s.pci_state.pci_enabled then [RestoreStep.pciSegmentAttached] else []) ++
      (PciDevices.restore alloc (MmioDeviceManager.restore alloc r s.mmio_state).2
          s.pci_state).1.map fun d => RestoreStep.pciDevice d.device_id)
    (by
      intro x hx
      obtain ⟨d, _, rfl⟩ := List.mem_map.mp hx
      exact ⟨d.device_id, rfl⟩)
    (by
      intro x hx
      rcases List.mem_append.mp hx with h1 | h2
      · left
        revert h1
        split <;> simp
      · right
        obtain ⟨d, _, rfl⟩ := List.mem_map.mp h2
        exact ⟨d.device_id, rfl⟩)
  exact key


/- ------------------------------------------------------------------ -/
/- Claim C1: save/restore round trip                                  -/
/- ------------------------------------------------------------------ -/

theorem vsockNotified_device_id (d : VirtioDev) :
    d.vsockNotified.device_id = d.device_id := by
  cases ha : d.activated <;> cases hf : d.vsock_reset_fails <;>
    simp [VirtioDev.vsockNotified, VirtioDev.sendTransportResetEvent, ha, hf]

theorem vsockNotified_activated (d : VirtioDev) :
    d.vsockNotified.activated = d.activated := by
  cases ha : d.activated <;> cases hf : d.vsock_reset_fails <;>
    simp [VirtioDev.vsockNotified, VirtioDev.sendTransportResetEvent, ha, hf]

theorem flatMap_blockContrib (mk : VirtioDev → β) (t : List VirtioDev) :
    t.flatMap (blockContrib mk) =
      (t.filter fun d =>
        decide (d.kind = DeviceKind.block ∧ d.is_vhost_user = false)).map mk := by
  induction t with
  | nil => rfl
  | cons d t ih =>
      by_cases hp : d.kind = DeviceKind.block ∧ d.is_vhost_user = false <;>
        simp [blockContrib, hp, ih]

theorem flatMap_netContrib (mk : VirtioDev → β) (t : List VirtioDev) :
    t.flatMap (netContrib mk) =
      (t.filter fun d => decide (d.kind = DeviceKind.net)).map mk := by
  induction t with
  | nil => rfl
  | cons d t ih =>
      by_cases hp : d.kind = DeviceKind.net <;> simp [netContrib, hp, ih]

theorem singleton_kind_triples (k : DeviceKind)
    (f : VirtioDev → Option VirtioDeviceState)
    (hnone : ∀ x : VirtioDev, x.kind ≠ k → f x = none)
    (hval : ∀ x : VirtioDev, x.kind = k → ∃ e, f x = some e ∧
      e.device_id = x.device_id ∧ e.device_state.activated = x.activated)
    (t : List VirtioDev) (hk : (t.filter fun d => decide (d.kind = k)).length ≤ 1)
    (mh : Option MmdsState) :
    (optionToList (lastContrib f t) (restoredMmioDev k mh)).map devTriple =
      (t.filter fun d => decide (d.kind = k)).map devTriple := by
  have hfeq := lastContrib_filter f (fun d => decide (d.kind = k))
    (fun x hx => hnone x (by simpa using hx)) t
  cases hft : t.filter (fun d => decide (d.kind = k)) with
  | nil =>
      rw [hfeq, hft, lastContrib_nil]
      rfl
  | cons b rest =>
      cases rest with
      | nil =>
          rw [hfeq, hft, lastContrib_cons, lastContrib_nil, optFirst_none_left]
          have hbf : b ∈ t.filter (fun d => decide (d.kind = k)) := by
            rw [hft]
            exact List.mem_singleton_self b
          have hbk : b.kind = k := of_decide_eq_true (List.mem_filter.mp hbf).2
          obtain ⟨e, hfe, hid, hact⟩ := hval b hbk
          rw [hfe]
          show [devTriple (restoredMmioDev k mh e)] = [devTriple b]
          simp [devTriple, restoredMmioDev, hid, hact, hbk]
      | cons c rest2 =>
          rw [hft] at hk
          simp at hk

/-- Claim C1: for every valid device topology (at most one balloon, vsock and
entropy device, and no vhost-user-backed block device), restoring the
snapshot produced by the MMIO save yields a device set whose
(device_type, device_id, activated) triples are a permutation of the
topology's: the same (device_type, device_id) pairs, each with the activated
flag recorded at save time. -/
theorem mmio_save_restore_round_trip (alloc : Nat) (res : VmResources)
    (t : List VirtioDev)
    (hb : (t.filter fun d => decide (d.kind = DeviceKind.balloon)).length ≤ 1)
    (hv : (t.filter fun d => decide (d.kind = DeviceKind.vsock)).length ≤ 1)
    (he : (t.filter fun d => decide (d.kind = DeviceKind.entropy)).length ≤ 1)
    (hvu : ∀ d ∈ t, d.kind = DeviceKind.block → d.is_vhost_user = false) :
    List.Perm
      (((MmioDeviceManager.restore alloc res (MmioDeviceManager.save t).1).1).map
        devTriple)
      (t.map devTriple) := by
  have hsave := mmio_save_eq t
  set S := (MmioDeviceManager.save t).1 with hS
  have hSb : S.balloon_device = lastContrib (balloonValue VirtioDev.toMmioState) t := by
    rw [hS, hsave]
  have hSbl : S.block_devices = t.flatMap (blockContrib VirtioDev.toMmioState) := by
    rw [hS, hsave]
  have hSn : S.net_devices = t.flatMap (netContrib VirtioDev.toMmioState) := by
    rw [hS, hsave]
  have hSv : S.vsock_device = lastContrib (vsockValue VirtioDev.toMmioState) t := by
    rw [hS, hsave]
  have hSe : S.entropy_device = lastContrib (entropyValue VirtioDev.toMmioState) t := by
    rw [hS, hsave]
  have hB := singleton_kind_triples DeviceKind.balloon
    (balloonValue VirtioDev.toMmioState)
    (by
      intro x hx
      unfold balloonValue
      rw [if_neg hx])
    (by
      intro x hx
      refine ⟨x.toMmioState, ?_, rfl, rfl⟩
      unfold balloonValue
      rw [if_pos hx])
    t hb none
  have hV := singleton_kind_triples DeviceKind.vsock
    (vsockValue VirtioDev.toMmioState)
    (by
      intro x hx
      unfold vsockValue
      rw [if_neg hx])
    (by
      intro x hx
      refine ⟨x.vsockNotified.toMmioState, ?_, ?_, ?_⟩
      · unfold vsockValue
        rw [if_pos hx]
      · exact vsockNotified_device_id x
      · exact vsockNotified_activated x)
    t hv none
  have hE := singleton_kind_triples DeviceKind.entropy
    (entropyValue VirtioDev.toMmioState)
    (by
      intro x hx
      unfold entropyValue
      rw [if_neg hx])
    (by
      intro x hx
      refine ⟨x.toMmioState, ?_, rfl, rfl⟩
      unfold entropyValue
      rw [if_pos hx])
    t he none
  have hq : (t.filter fun d =>
      decide (d.kind = DeviceKind.block ∧ d.is_vhost_user = false)) =
      t.filter fun d => decide (d.kind = DeviceKind.block) := by
    refine List.filter_congr ?_
    intro d hd
    by_cases hbk : d.kind = DeviceKind.block
    · simp [hbk, hvu d hd hbk]
    · simp [hbk]
  have hBl : ((t.flatMap (blockContrib VirtioDev.toMmioState)).map
      (restoredMmioDev DeviceKind.block none)).map devTriple =
      (t.filter fun d => decide (d.kind = DeviceKind.block)).map devTriple := by
    rw [flatMap_blockContrib, hq, List.map_map, List.map_map]
    refine List.map_congr_left ?_
    intro d hd
    have hdk : d.kind = DeviceKind.block :=
      of_decide_eq_true (List.mem_filter.mp hd).2
    simp [Function.comp, devTriple, restoredMmioDev, VirtioDev.toMmioState,
      VirtioDev.saveState, hdk]
  have hN : ∀ mh : Option MmdsState,
      ((t.flatMap (netContrib VirtioDev.toMmioState)).map
        (fun e => restoredMmioDev DeviceKind.net mh e)).map devTriple =
      (t.filter fun d => decide (d.kind = DeviceKind.net)).map devTriple := by
    intro mh
    rw [flatMap_netContrib, List.map_map, List.map_map]
    refine List.map_congr_left ?_
    intro d hd
    have hdk : d.kind = DeviceKind.net :=
      of_decide_eq_true (List.mem_filter.mp hd).2
    simp [Function.comp, devTriple, restoredMmioDev, VirtioDev.toMmioState,
      VirtioDev.saveState, hdk]
  simp only [MmioDeviceManager.restore]
  rw [hSb, hSbl, hSn, hSv, hSe]
  rw [List.map_append, List.map_append, List.map_append, List.map_append]
  rw [hB, hV, hE, hBl, hN]
  have hperm := (five_kind_filter_perm t).map devTriple
  rw [List.map_append, List.map_append, List.map_append, List.map_append] at hperm
  exact hperm

/-- Witness for C1 at a topology with one device of every kind. -/
theorem mmio_save_restore_round_trip_witness :
    ((roundTripTopology.filter fun d =>
        decide (d.kind = DeviceKind.balloon)).length ≤ 1) ∧
      ((roundTripTopology.filter fun d =>
        decide (d.kind = DeviceKind.vsock)).length ≤ 1) ∧
      ((roundTripTopology.filter fun d =>
        decide (d.kind = DeviceKind.entropy)).length ≤ 1) ∧
      (∀ d ∈ roundTripTopology, d.kind = DeviceKind.block →
        d.is_vhost_user = false) ∧
      List.Perm
        (((MmioDeviceManager.restore 0 { mmds := none }
            (MmioDeviceManager.save roundTripTopology).1).1).map devTriple)
        (roundTripTopology.map devTriple) :=
  ⟨by decide, by decide, by decide, by decide,
    mmio_save_restore_round_trip 0 { mmds := none } roundTripTopology
      (by decide) (by decide) (by decide) (by decide)⟩

/-- Witness for C6 as amended at an MMIO-mode snapshot with one saved
device: the MMIO device step at index 1 precedes the ACPI step at index 2. -/
theorem restore_step_order_witness :
    ((DeviceManager.restoreTrace 0 0 { mmds := none } mmioEnabledSnapshot)[1]? =
        some (RestoreStep.mmioDevice "rng0")) ∧
      ((DeviceManager.restoreTrace 0 0 { mmds := none } mmioEnabledSnapshot)[2]? =
        some RestoreStep.acpiRestored) ∧
      1 < 2 :=
  ⟨by decide, by decide,
    (restore_step_order 0 0 { mmds := none } mmioEnabledSnapshot).2.2.1 1 2 "rng0"
      (by decide) (by decide)⟩

end Firecracker
